import Mathlib

/-!
# The WebAssembly / Node native API marshalling layer (src/wasm_node_api.cc)

A shallow embedding of the generic trampoline (napiCast, napiUnwrap, napiWrap,
napiApply::apply, napiCall::call) and of the five hand-written buffer bindings.

Conventions of the embedding

* The host is a 64-bit little-endian machine: pointers and size_t are 8 bytes wide and
  are represented by natural numbers below 2^64.  Host memory is a byte-addressed
  function from addresses to byte values; the guest LinearMemory is the part of it that
  starts at the address held in the field base of the world (memory->data()).
* The payload of an Int32 wasm value is an integer; int32_t values lie in
  [-2^31, 2^31).
* Template arguments are data: the C types wrapped by Native<> and Wasm<> form the type
  CType, the two wrappers form Marker, and the type traits are functions on TypeArg.
* The native runtime, the allocator and the bound native functions are parameters.  Every
  call that leaves the binding layer, and every store the layer performs itself, is
  recorded in the effect log of the world.
-/

namespace WasmNodeApi

/-! ## Value kinds and values of the WebAssembly C API -/

/-- Kinds of values crossing the guest/host boundary (wasm::ValKind, as far as used). -/
inductive ValKind
  | I32
  | F32
  | F64
  deriving DecidableEq, Repr

/-- A value of the WebAssembly C API (wasm::Val): a kind together with its payload.
Floating point payloads are carried as bit patterns; no arithmetic is done on them. -/
inductive Val
  | i32 (v : Int)
  | f32 (bits : Nat)
  | f64 (bits : Nat)
  deriving DecidableEq, Repr

/-- Ways in which an access can leave the defined behaviour of the source. -/
inductive Fault
  | kindMismatch
  | outOfBounds
  deriving DecidableEq, Repr

/-- The kind of a value (wasm::Val::kind). -/
def Val.kind : Val → ValKind
  | .i32 _ => .I32
  | .f32 _ => .F32
  | .f64 _ => .F64

/-- Accessor v.i32(): defined on values of kind I32 only. -/
def Val.get_i32 : Val → Except Fault Int
  | .i32 v => .ok v
  | _ => .error .kindMismatch

/-- Accessor v.f32(): defined on values of kind F32 only. -/
def Val.get_f32 : Val → Except Fault Nat
  | .f32 b => .ok b
  | _ => .error .kindMismatch

/-- Accessor v.f64(): defined on values of kind F64 only. -/
def Val.get_f64 : Val → Except Fault Nat
  | .f64 b => .ok b
  | _ => .error .kindMismatch

/-- A trap object of the WebAssembly C API; the bindings only ever return the null trap. -/
structure Trap where
  code : Nat
  deriving DecidableEq, Repr

/-- Read args[i]. -/
def getArg (args : List Val) (i : Nat) : Except Fault Val :=
  match args[i]? with
  | some v => .ok v
  | none => .error .outOfBounds

/-- Assignment results[i] = v. -/
def setResult (results : List Val) (i : Nat) (v : Val) : Except Fault (List Val) :=
  if i < results.length then .ok (results.set i v) else .error .outOfBounds

/-! ## Machine integers and pointers -/

/-- Number of distinct values of a pointer or of a size_t on the host. -/
def WORD : Nat := 2 ^ 64

/-- Conversion of an integer to int32_t (the cast (int) v of napiWrap). -/
def toInt32 (v : Int) : Int := (v + 2 ^ 31) % 2 ^ 32 - 2 ^ 31

/-- Conversion of an int32_t to size_t: sign extension to 64 bits, read unsigned. -/
def toSizeT (v : Int) : Nat := (v % (2 : Int) ^ 64).toNat

/-- Conversion of an int32_t to a pointer type such as napi_env or napi_value. -/
def toPtr (v : Int) : Nat := (v % (2 : Int) ^ 64).toNat

/-- Pointer arithmetic &p[i] on byte pointers, in 64-bit address arithmetic. -/
def ptrAdd (p : Nat) (i : Int) : Nat := (((p : Int) + i) % (2 : Int) ^ 64).toNat

/-- Pointer difference p - q of byte pointers, stored back into a pointer. -/
def ptrSub (p q : Nat) : Nat := (((p : Int) - (q : Int)) % (2 : Int) ^ 64).toNat

/-! ## Host memory -/

/-- Byte-addressed host memory. -/
abbrev Mem := Nat → Nat

/-- Byte number i (little endian) of the value v. -/
def byteAt (v i : Nat) : Nat := v / 256 ^ i % 256

/-- Store of a pointer-sized value: *(void **) a = v. -/
def store64 (m : Mem) (a v : Nat) : Mem :=
  fun x => if a ≤ x ∧ x < a + 8 then byteAt v (x - a) else m x

/-- Load of a pointer-sized value: *(void **) a. -/
def load64 (m : Mem) (a : Nat) : Nat :=
  m a % 256 + 256 * (m (a + 1) % 256) + 256 ^ 2 * (m (a + 2) % 256)
    + 256 ^ 3 * (m (a + 3) % 256) + 256 ^ 4 * (m (a + 4) % 256)
    + 256 ^ 5 * (m (a + 5) % 256) + 256 ^ 6 * (m (a + 6) % 256)
    + 256 ^ 7 * (m (a + 7) % 256)

/-- The C library call memcpy(dst, src, n) on non-overlapping ranges. -/
def memcpy (m : Mem) (dst src n : Nat) : Mem :=
  fun x => if dst ≤ x ∧ x < dst + n then m (src + (x - dst)) else m x

/-! ## Template arguments and type traits -/

/-- C types that occur inside Native<> and Wasm<> in the import table.  All enum types
share one constructor and so do all pointer types (object, function and handle
pointers); the code treats the members of each family alike. -/
inductive CType
  | void
  | float
  | double
  | bool
  | int
  | int32_t
  | uint32_t
  | int64_t
  | uint64_t
  | size_t
  | enumeration
  | pointer
  deriving DecidableEq, Repr

/-- The class templates Native<T> (pass the raw value) and Wasm<T> (an address inside
the guest memory). -/
inductive Marker
  | Native (T : CType)
  | Wasm (T : CType)
  deriving DecidableEq, Repr

/-- A type as the standard type traits see it: a plain type or a wrapper class. -/
inductive TypeArg
  | plain (T : CType)
  | cls (K : Marker)
  deriving DecidableEq, Repr

/-- The trait std::is_void_v: true for the type void and for nothing else. -/
def is_void_v : TypeArg → Bool
  | .plain .void => true
  | _ => false

/-- The trait is_native_v: true exactly for the specialisations of Native. -/
def is_native_v : TypeArg → Bool
  | .cls (.Native _) => true
  | _ => false

/-- The trait is_wasm_v: true exactly for the specialisations of Wasm. -/
def is_wasm_v : TypeArg → Bool
  | .cls (.Wasm _) => true
  | _ => false

/-- The alias kind<K> = typename K::type. -/
def kind : Marker → CType
  | .Native T => T
  | .Wasm T => T

/-- The variable template wasmType<T>. -/
def wasmType : CType → ValKind
  | .float => .F32
  | .double => .F64
  | _ => .I32

/-! ## Native values -/

/-- A value on the native side of a binding. -/
inductive NativeVal
  | void
  | int (v : Int)
  | ptr (addr : Nat)
  | float (bits : Nat)
  | double (bits : Nat)
  deriving DecidableEq, Repr

/-- The C cast (T) x of an int32_t value x to an integer, enum, bool or pointer type T
(napiCast uses it for every T other than float and double). -/
def castInt32 (T : CType) (x : Int) : NativeVal :=
  match T with
  | .void => .void
  | .bool => .int (if x = 0 then 0 else 1)
  | .uint32_t => .int (x % 2 ^ 32)
  | .uint64_t => .int (x % 2 ^ 64)
  | .size_t => .int (x % 2 ^ 64)
  | .pointer => .ptr (toPtr x)
  | _ => .int x

/-- The function template napiCast<Arg>. -/
def napiCast (Arg : CType) (v : Val) : Except Fault NativeVal :=
  if Arg = .float then do
    let b ← v.get_f32
    pure (.float b)
  else if Arg = .double then do
    let b ← v.get_f64
    pure (.double b)
  else do
    let x ← v.get_i32
    pure (castInt32 Arg x)

/-! ## The world a binding runs in -/

/-- Function pointers handed to the native runtime as release callbacks. -/
inductive Callback
  | finalizeBuffer
  | nullptr
  deriving DecidableEq, Repr

/-- Effects of a binding: calls that leave the binding layer, and its own stores. -/
inductive Event
  | native (args : List NativeVal)
  | malloc (size ret : Nat)
  | free (ptr : Nat)
  | memcpy (dst src n : Nat)
  | store (addr value : Nat)
  | napi_create_external_arraybuffer (env data byte_length : Nat) (finalize_cb : Callback)
      (hint result : Nat) (status : Int)
  | napi_create_external_buffer (env length data : Nat) (finalize_cb : Callback)
      (hint result : Nat) (status : Int)
  | napi_get_arraybuffer_info (env arraybuffer data byte_length : Nat) (status : Int)
  | napi_get_buffer_info (env value data length : Nat) (status : Int)
  deriving DecidableEq, Repr

/-- The state a binding reads and changes: the global memory (address of its first byte
and its current size), the bytes of host memory, and the effect log. -/
structure World where
  base : Nat
  size : Nat
  bytes : Mem
  log : List Event

/-- Record an effect. -/
def World.logged (w : World) (e : Event) : World :=
  { w with log := w.log ++ [e] }

/-- A native function bound through napiBind: from its arguments and host memory to its
return value and the memory it leaves. -/
abbrev NativeFn := List NativeVal → Mem → NativeVal × Mem

/-- Invoke a bound native function and record the call. -/
def invoke (fn : NativeFn) (vals : List NativeVal) (w : World) : NativeVal × World :=
  let r := fn vals w.bytes
  (r.1, { w with bytes := r.2, log := w.log ++ [.native vals] })

/-- Ways in which a call of the generic trampoline ends without returning.  Either an
access leaves the defined behaviour (fault), or control reaches the closing brace of
napiApply::apply, a function with a non-void return type, without having met a return
statement (noReturn): the native function has been called and has returned, leaving the
world w, and from there on the behaviour of the program is undefined; the trampoline
returns nothing to its caller. -/
inductive Stop
  | fault (f : Fault)
  | noReturn (w : World)

/-- Modelled from the spec: the status code that denotes success (a value of zero, by the
convention of the native API; the enum napi_status is declared in node_api.h). -/
def napi_ok : Int := 0

/-- The allocator and the part of the native runtime that the hand-written bindings call.
The enumerator napi_generic_failure is declared in node_api.h; its value is a field.
Every runtime function maps its arguments and host memory to a status and the memory it
leaves. -/
structure NativeApi where
  napi_generic_failure : Int
  malloc : Nat → Nat
  napi_create_external_arraybuffer :
    (env data byte_length : Nat) → Callback → (hint result : Nat) → Mem → Int × Mem
  napi_create_external_buffer :
    (env length data : Nat) → Callback → (hint result : Nat) → Mem → Int × Mem
  napi_get_arraybuffer_info : (env arraybuffer data byte_length : Nat) → Mem → Int × Mem
  napi_get_buffer_info : (env value data length : Nat) → Mem → Int × Mem

/-! ## The generic trampoline -/

/-- The function template napiUnwrap<Result>. -/
def napiUnwrap (Result : Marker) (v : Val) (w : World) : Except Fault NativeVal :=
  if is_wasm_v (.cls Result) then do
    let i ← v.get_i32
    pure (.ptr (ptrAdd w.base i))
  else
    napiCast (kind Result) v

/-- The function template napiWrap<Result>. -/
def napiWrap (Result : Marker) (v : NativeVal) : Val :=
  if kind Result = .float then
    match v with
    | .float b => .f32 b
    | _ => .f32 0
  else if kind Result = .double then
    match v with
    | .double b => .f64 b
    | _ => .f64 0
  else
    match v with
    | .int x => .i32 (toInt32 x)
    | .ptr a => .i32 (toInt32 a)
    | _ => .i32 0

/-- The pack expansion napiUnwrap<Args>(args[Indices])... of napiApply::apply, the index
sequence starting at i. -/
def unwrapPack (Args : List Marker) (args : List Val) (w : World) (i : Nat) :
    Except Fault (List NativeVal) :=
  match Args with
  | [] => pure []
  | A :: rest => do
    let v ← getArg args i
    let x ← napiUnwrap A v w
    let xs ← unwrapPack rest args w (i + 1)
    pure (x :: xs)

/-- The member napiApply<Result, Args...>::apply.  In the branch for a void kind the source
returns fn(...).  In the branch for a non-void kind it calls fn, drops the value and has no
return statement, although the return type kind<Result> is not void: control flows off the
end of the function once fn has returned. -/
def napiApply.apply (Result : Marker) (Args : List Marker) (fn : NativeFn)
    (args : List Val) (w : World) : Except Stop (NativeVal × World) :=
  match unwrapPack Args args w 0 with
  | .error f => .error (.fault f)
  | .ok vals =>
    if is_void_v (.plain (kind Result)) then
      .ok (invoke fn vals w)
    else
      .error (.noReturn (invoke fn vals w).2)

/-- The member napiCall<Result, Args...>::call<Fn>, the trampoline of a generic binding. -/
def napiCall.call (Result : Marker) (Args : List Marker) (fn : NativeFn)
    (args results : List Val) (w : World) :
    Except Stop (Option Trap × List Val × World) :=
  if is_void_v (.cls Result) then
    match napiApply.apply Result Args fn args w with
    | .error e => .error e
    | .ok r =>
      match setResult results 0 (napiWrap Result r.1) with
      | .error f => .error (.fault f)
      | .ok results => .ok (none, results, r.2)
  else
    match napiApply.apply Result Args fn args w with
    | .error e => .error e
    | .ok r => .ok (none, results, r.2)

/-- Kinds of the parameters declared for a generic binding: napiBind::bind registers
exportNative<kind<Result>, kind<Args>...>, whose parameters are wasmType<kind<Args>>... -/
def paramKinds (Args : List Marker) : List ValKind :=
  Args.map (fun A => wasmType (kind A))

/-! ## The hand-written buffer bindings -/

/-- The release callback finalizeBuffer. -/
def finalizeBuffer (_env finalize_data _finalize_hint : Nat) (w : World) : World :=
  w.logged (.free finalize_data)

/-- The binding __napi_create_arraybuffer. -/
def __napi_create_arraybuffer (rt : NativeApi) (args results : List Val) (w : World) :
    Except Fault (Option Trap × List Val × World) := do
  let env := toPtr (← (← getArg args 0).get_i32)
  let byte_length := toSizeT (← (← getArg args 1).get_i32)
  let data := ptrAdd w.base (← (← getArg args 2).get_i32)
  let result := ptrAdd w.base (← (← getArg args 3).get_i32)
  let buffer := rt.malloc byte_length % WORD
  let w := w.logged (.malloc byte_length buffer)
  let sw : Int × World :=
    if buffer = 0 then
      (rt.napi_generic_failure, w)
    else
      let r := rt.napi_create_external_arraybuffer env buffer byte_length
        .finalizeBuffer 0 result w.bytes
      let w := { w with bytes := r.2 }.logged
        (.napi_create_external_arraybuffer env buffer byte_length .finalizeBuffer 0 result r.1)
      if r.1 = napi_ok then
        (r.1, { w with bytes := store64 w.bytes data buffer }.logged (.store data buffer))
      else
        (r.1, w)
  let results ← setResult results 0 (.i32 sw.1)
  pure (none, results, sw.2)

/-- The binding __napi_create_buffer. -/
def __napi_create_buffer (rt : NativeApi) (args results : List Val) (w : World) :
    Except Fault (Option Trap × List Val × World) := do
  let env := toPtr (← (← getArg args 0).get_i32)
  let size := toSizeT (← (← getArg args 1).get_i32)
  let data := ptrAdd w.base (← (← getArg args 2).get_i32)
  let result := ptrAdd w.base (← (← getArg args 3).get_i32)
  let buffer := rt.malloc size % WORD
  let w := w.logged (.malloc size buffer)
  let sw : Int × World :=
    if buffer = 0 then
      (rt.napi_generic_failure, w)
    else
      let r := rt.napi_create_external_buffer env size buffer .finalizeBuffer 0 result w.bytes
      let w := { w with bytes := r.2 }.logged
        (.napi_create_external_buffer env size buffer .finalizeBuffer 0 result r.1)
      if r.1 = napi_ok then
        (r.1, { w with bytes := store64 w.bytes data buffer }.logged (.store data buffer))
      else
        (r.1, w)
  let results ← setResult results 0 (.i32 sw.1)
  pure (none, results, sw.2)

/-- The binding __napi_create_buffer_copy. -/
def __napi_create_buffer_copy (rt : NativeApi) (args results : List Val) (w : World) :
    Except Fault (Option Trap × List Val × World) := do
  let env := toPtr (← (← getArg args 0).get_i32)
  let length := toSizeT (← (← getArg args 1).get_i32)
  let data := ptrAdd w.base (← (← getArg args 2).get_i32)
  let result_data := ptrAdd w.base (← (← getArg args 3).get_i32)
  let result := ptrAdd w.base (← (← getArg args 4).get_i32)
  let buffer := rt.malloc length % WORD
  let w := w.logged (.malloc length buffer)
  let sw : Int × World :=
    if buffer = 0 then
      (rt.napi_generic_failure, w)
    else
      let r := rt.napi_create_external_buffer env length buffer .finalizeBuffer 0 result w.bytes
      let w := { w with bytes := r.2 }.logged
        (.napi_create_external_buffer env length buffer .finalizeBuffer 0 result r.1)
      if r.1 = napi_ok then
        let w := { w with bytes := memcpy w.bytes buffer data length }.logged
          (.memcpy buffer data length)
        (r.1, { w with bytes := store64 w.bytes result_data buffer }.logged
          (.store result_data buffer))
      else
        (r.1, w)
  let results ← setResult results 0 (.i32 sw.1)
  pure (none, results, sw.2)

/-- The binding __napi_get_arraybuffer_info. -/
def __napi_get_arraybuffer_info (rt : NativeApi) (args results : List Val) (w : World) :
    Except Fault (Option Trap × List Val × World) := do
  let env := toPtr (← (← getArg args 0).get_i32)
  let arraybuffer := toPtr (← (← getArg args 1).get_i32)
  let data := ptrAdd w.base (← (← getArg args 2).get_i32)
  let byte_length := ptrAdd w.base (← (← getArg args 3).get_i32)
  let r := rt.napi_get_arraybuffer_info env arraybuffer data byte_length w.bytes
  let w := { w with bytes := r.2 }.logged
    (.napi_get_arraybuffer_info env arraybuffer data byte_length r.1)
  let w :=
    if r.1 = napi_ok then
      let data_addr := load64 w.bytes data
      let data_addr := ptrSub data_addr (ptrAdd w.base 0)
      { w with bytes := store64 w.bytes data data_addr }.logged (.store data data_addr)
    else
      w
  let results ← setResult results 0 (.i32 r.1)
  pure (none, results, w)

/-- The binding __napi_get_buffer_info. -/
def __napi_get_buffer_info (rt : NativeApi) (args results : List Val) (w : World) :
    Except Fault (Option Trap × List Val × World) := do
  let env := toPtr (← (← getArg args 0).get_i32)
  let arraybuffer := toPtr (← (← getArg args 1).get_i32)
  let data := ptrAdd w.base (← (← getArg args 2).get_i32)
  let length := ptrAdd w.base (← (← getArg args 3).get_i32)
  let r := rt.napi_get_buffer_info env arraybuffer data length w.bytes
  let w := { w with bytes := r.2 }.logged
    (.napi_get_buffer_info env arraybuffer data length r.1)
  let w :=
    if r.1 = napi_ok then
      let data_addr := load64 w.bytes data
      let data_addr := ptrSub data_addr (ptrAdd w.base 0)
      { w with bytes := store64 w.bytes data data_addr }.logged (.store data data_addr)
    else
      w
  let results ← setResult results 0 (.i32 r.1)
  pure (none, results, w)

/-! ## Sample data for the concrete evaluations -/

/-- A world whose guest memory starts at host address 0x500000000 and is one page long;
the byte at address a holds a mod 251. -/
def demoWorld : World :=
  { base := 21474836480, size := 65536, bytes := fun a => a % 251, log := [] }

/-- A native function of one pointer argument that returns the 32-bit integer 7. -/
def demoFn : NativeFn := fun _ m => (.int 7, m)

/-- A world whose guest memory spans the whole 32-bit address space. -/
def bigWorld : World :=
  { base := 21474836480, size := 4294967296, bytes := fun _ => 0, log := [] }

/-- A sample allocator and runtime.  Requests of up to 4096 bytes are served with the
block at host address 0x1000001000 (68719480832), larger ones fail.  Registration fails
with status 1 for a null environment and otherwise stores the handle 21845 at the result
address.  The info functions store the pointer 0x1000001000 and then the length 16. -/
def demoApi : NativeApi :=
  { napi_generic_failure := 9
    malloc := fun n => if n ≤ 4096 then 68719480832 else 0
    napi_create_external_arraybuffer := fun env _ _ _ _ result m =>
      if env = 0 then (1, m) else (0, store64 m result 21845)
    napi_create_external_buffer := fun env _ _ _ _ result m =>
      if env = 0 then (1, m) else (0, store64 m result 21845)
    napi_get_arraybuffer_info := fun _ _ data byte_length m =>
      (0, store64 (store64 m data 68719480832) byte_length 16)
    napi_get_buffer_info := fun _ _ data length m =>
      (0, store64 (store64 m data 68719480832) length 16) }

/-- The world a binding leaves, when it returns. -/
def worldOf (r : Except Fault (Option Trap × List Val × World)) : Option World :=
  match r with
  | .ok x => some x.2.2
  | .error _ => none

/-- A native function of an environment and a guest address that returns the status 0. -/
def demoStatusFn : NativeFn := fun _ m => (.int 0, m)

/-! ## Function types and the import table -/

/-- A function type of the WebAssembly C API (wasm::FuncType): the kinds of the parameters
and the kinds of the results. -/
structure FuncType where
  params : List ValKind
  results : List ValKind
  deriving DecidableEq, Repr

/-- The functions of the native API that the import table stands for: the template
arguments Fn of the generic bindings and the five functions that the hand-written bindings
take the place of. -/
inductive NapiFn
  | napi_get_last_error_info | napi_throw | napi_throw_error | napi_throw_type_error
  | napi_throw_range_error | napi_is_error | napi_create_error | napi_create_type_error
  | napi_create_range_error | napi_get_and_clear_last_exception | napi_is_exception_pending
  | napi_fatal_exception | napi_fatal_error | napi_open_handle_scope
  | napi_close_handle_scope | napi_open_escapable_handle_scope
  | napi_close_escapable_handle_scope | napi_escape_handle | napi_create_reference
  | napi_delete_reference | napi_reference_ref | napi_reference_unref
  | napi_get_reference_value | napi_add_env_cleanup_hook | napi_remove_env_cleanup_hook
  | napi_create_array | napi_create_array_with_length | napi_create_arraybuffer
  | napi_create_buffer | napi_create_buffer_copy | napi_create_date | napi_create_external
  | napi_create_external_arraybuffer | napi_create_external_buffer | napi_create_object
  | napi_create_symbol | napi_create_typedarray | napi_create_dataview | napi_create_int32
  | napi_create_uint32 | napi_create_int64 | napi_create_double | napi_create_bigint_int64
  | napi_create_bigint_uint64 | napi_create_bigint_words | napi_create_string_latin1
  | napi_create_string_utf16 | napi_create_string_utf8 | napi_get_array_length
  | napi_get_arraybuffer_info | napi_get_buffer_info | napi_get_prototype
  | napi_get_typedarray_info | napi_get_dataview_info | napi_get_date_value
  | napi_get_value_bool | napi_get_value_double | napi_get_value_bigint_int64
  | napi_get_value_bigint_uint64 | napi_get_value_bigint_words | napi_get_value_external
  | napi_get_value_int32 | napi_get_value_uint32 | napi_get_value_int64
  | napi_get_value_string_latin1 | napi_get_value_string_utf8 | napi_get_value_string_utf16
  | napi_get_boolean | napi_get_global | napi_get_null | napi_get_undefined
  | napi_coerce_to_bool | napi_coerce_to_number | napi_coerce_to_object
  | napi_coerce_to_string | napi_typeof | napi_instanceof | napi_is_array
  | napi_is_arraybuffer | napi_is_buffer | napi_is_date | napi_is_typedarray
  | napi_is_dataview | napi_strict_equals | napi_get_property_names | napi_set_property
  | napi_get_property | napi_has_property | napi_delete_property | napi_has_own_property
  | napi_set_named_property | napi_get_named_property | napi_has_named_property
  | napi_set_element | napi_get_element | napi_has_element | napi_delete_element
  | napi_define_properties | napi_call_function | napi_create_function | napi_get_cb_info
  | napi_get_new_target | napi_new_instance | napi_define_class | napi_wrap | napi_unwrap
  | napi_remove_wrap | napi_add_finalizer | napi_create_async_work | napi_delete_async_work
  | napi_queue_async_work | napi_cancel_async_work | napi_async_init | napi_async_destroy
  | napi_make_callback | napi_open_callback_scope | napi_close_callback_scope
  | napi_get_node_version | napi_get_version | napi_adjust_external_memory
  | napi_create_promise | napi_resolve_deferred | napi_reject_deferred | napi_is_promise
  | napi_run_script | napi_get_uv_event_loop | napi_create_threadsafe_function
  | napi_get_threadsafe_function_context | napi_call_threadsafe_function
  | napi_acquire_threadsafe_function | napi_release_threadsafe_function
  | napi_ref_threadsafe_function | napi_unref_threadsafe_function
  deriving DecidableEq, Repr

/-- The five hand-written bindings, as callbacks. -/
inductive BufferBinding
  | __napi_create_arraybuffer
  | __napi_create_buffer
  | __napi_create_buffer_copy
  | __napi_get_arraybuffer_info
  | __napi_get_buffer_info
  deriving DecidableEq, Repr

/-- A callback handed to wasm::Func::make: an instance napiCall<Result, Args...>::call<Fn>
of the generic trampoline, or one of the hand-written bindings. -/
inductive Trampoline
  | call (Result : Marker) (Args : List Marker) (Fn : NapiFn)
  | buffer (b : BufferBinding)
  deriving DecidableEq, Repr

/-- A host function made by wasm::Func::make(store, type, cb). -/
structure HostFunc where
  type : FuncType
  cb : Trampoline
  deriving DecidableEq, Repr

/-- The function template exportVoid<Args...>. -/
def exportVoid (Args : List ValKind) (cb : Trampoline) : HostFunc :=
  { type := { params := Args, results := [] }, cb := cb }

/-- The function template exportFn<Return, Args...>. -/
def exportFn (Return : ValKind) (Args : List ValKind) (cb : Trampoline) : HostFunc :=
  { type := { params := Args, results := [Return] }, cb := cb }

/-- The function template exportNative<Return, Args...>. -/
def exportNative (Return : CType) (Args : List CType) (cb : Trampoline) : HostFunc :=
  if is_void_v (.plain Return) then
    exportVoid (Args.map wasmType) cb
  else
    exportFn (wasmType Return) (Args.map wasmType) cb

/-- The member napiBind<Result, Args...>::bind<Fn>. -/
def napiBind.bind (Result : Marker) (Args : List Marker) (Fn : NapiFn) : HostFunc :=
  exportNative (kind Result) (Args.map kind) (.call Result Args Fn)

/-- The native API function an entry of the import table stands for: the template argument
Fn of a generic binding, and for a hand-written binding the function whose prototype is
quoted in the comment above its definition. -/
def boundFunction (cb : Trampoline) : NapiFn :=
  match cb with
  | .call _ _ Fn => Fn
  | .buffer .__napi_create_arraybuffer => .napi_create_arraybuffer
  | .buffer .__napi_create_buffer => .napi_create_buffer
  | .buffer .__napi_create_buffer_copy => .napi_create_buffer_copy
  | .buffer .__napi_get_arraybuffer_info => .napi_get_arraybuffer_info
  | .buffer .__napi_get_buffer_info => .napi_get_buffer_info

/-- The values of the two preprocessor conditions that guard entries of the import table:
NAPI_VERSION >= 4 && NAPI_EXPERIMENTAL, and NAPI_VERSION >= 4 && NAPI_EXERIMENTAL (the
spelling of the guard of napi_get_date_value). -/
structure BuildConfig where
  experimental : Bool
  exerimental : Bool
  deriving DecidableEq, Repr

/-- The array imports of provideNapi after its first entry, the memory.  In the entries the
type napi_status and the other enums are the C type enumeration, and napi_env, napi_value
and the other handles are pointers. -/
def provideNapi.imports (cfg : BuildConfig) : List HostFunc :=
  [
    napiBind.bind (.Native .enumeration) [.Native .pointer, .Wasm .pointer]
      .napi_get_last_error_info,
    napiBind.bind (.Native .enumeration) [.Native .pointer, .Native .pointer] .napi_throw,
    napiBind.bind (.Native .enumeration) [.Native .pointer, .Wasm .pointer, .Wasm .pointer]
      .napi_throw_error,
    napiBind.bind (.Native .enumeration) [.Native .pointer, .Wasm .pointer, .Wasm .pointer]
      .napi_throw_type_error,
    napiBind.bind (.Native .enumeration) [.Native .pointer, .Wasm .pointer, .Wasm .pointer]
      .napi_throw_range_error,
    napiBind.bind (.Native .enumeration) [.Native .pointer, .Native .pointer, .Wasm .pointer]
      .napi_is_error,
    napiBind.bind (.Native .enumeration) [.Native .pointer, .Native .pointer,
      .Native .pointer, .Wasm .pointer] .napi_create_error,
    napiBind.bind (.Native .enumeration) [.Native .pointer, .Native .pointer,
      .Native .pointer, .Wasm .pointer] .napi_create_type_error,
    napiBind.bind (.Native .enumeration) [.Native .pointer, .Native .pointer,
      .Native .pointer, .Wasm .pointer] .napi_create_range_error,
    napiBind.bind (.Native .enumeration) [.Native .pointer, .Wasm .pointer]
      .napi_get_and_clear_last_exception,
    napiBind.bind (.Native .enumeration) [.Native .pointer, .Wasm .pointer]
      .napi_is_exception_pending,
    napiBind.bind (.Native .enumeration) [.Native .pointer, .Native .pointer]
      .napi_fatal_exception,
    napiBind.bind (.Native .void) [.Wasm .pointer, .Native .size_t, .Wasm .pointer,
      .Native .size_t] .napi_fatal_error,
    napiBind.bind (.Native .enumeration) [.Native .pointer, .Wasm .pointer]
      .napi_open_handle_scope,
    napiBind.bind (.Native .enumeration) [.Native .pointer, .Native .pointer]
      .napi_close_handle_scope,
    napiBind.bind (.Native .enumeration) [.Native .pointer, .Wasm .pointer]
      .napi_open_escapable_handle_scope,
    napiBind.bind (.Native .enumeration) [.Native .pointer, .Native .pointer]
      .napi_close_escapable_handle_scope,
    napiBind.bind (.Native .enumeration) [.Native .pointer, .Native .pointer,
      .Native .pointer, .Wasm .pointer] .napi_escape_handle,
    napiBind.bind (.Native .enumeration) [.Native .pointer, .Native .pointer,
      .Native .uint32_t, .Wasm .pointer] .napi_create_reference,
    napiBind.bind (.Native .enumeration) [.Native .pointer, .Native .pointer]
      .napi_delete_reference,
    napiBind.bind (.Native .enumeration) [.Native .pointer, .Native .pointer, .Wasm .pointer]
      .napi_reference_ref,
    napiBind.bind (.Native .enumeration) [.Native .pointer, .Native .pointer, .Wasm .pointer]
      .napi_reference_unref,
    napiBind.bind (.Native .enumeration) [.Native .pointer, .Native .pointer, .Wasm .pointer]
      .napi_get_reference_value,
    napiBind.bind (.Native .enumeration) [.Native .pointer, .Wasm .pointer, .Wasm .pointer]
      .napi_add_env_cleanup_hook,
    napiBind.bind (.Native .enumeration) [.Native .pointer, .Wasm .pointer, .Wasm .pointer]
      .napi_remove_env_cleanup_hook,
    napiBind.bind (.Native .enumeration) [.Native .pointer, .Wasm .pointer] .napi_create_array,
    napiBind.bind (.Native .enumeration) [.Native .pointer, .Native .size_t, .Wasm .pointer]
      .napi_create_array_with_length,
    exportFn .I32 [.I32, .I32, .I32, .I32] (.buffer .__napi_create_arraybuffer),
    exportFn .I32 [.I32, .I32, .I32, .I32] (.buffer .__napi_create_buffer),
    exportFn .I32 [.I32, .I32, .I32, .I32, .I32] (.buffer .__napi_create_buffer_copy) ] ++
  (if cfg.experimental then [
    napiBind.bind (.Native .enumeration) [.Native .pointer, .Native .double, .Wasm .pointer]
      .napi_create_date ] else []) ++
  [
    napiBind.bind (.Native .enumeration) [.Native .pointer, .Wasm .pointer, .Wasm .pointer,
      .Wasm .pointer, .Wasm .pointer] .napi_create_external,
    napiBind.bind (.Native .enumeration) [.Native .pointer, .Wasm .pointer, .Native .size_t,
      .Wasm .pointer, .Wasm .pointer, .Wasm .pointer] .napi_create_external_arraybuffer,
    napiBind.bind (.Native .enumeration) [.Native .pointer, .Native .size_t, .Wasm .pointer,
      .Wasm .pointer, .Wasm .pointer, .Wasm .pointer] .napi_create_external_buffer,
    napiBind.bind (.Native .enumeration) [.Native .pointer, .Wasm .pointer]
      .napi_create_object,
    napiBind.bind (.Native .enumeration) [.Native .pointer, .Native .pointer, .Wasm .pointer]
      .napi_create_symbol,
    napiBind.bind (.Native .enumeration) [.Native .pointer, .Native .enumeration,
      .Native .size_t, .Native .pointer, .Native .size_t, .Wasm .pointer]
      .napi_create_typedarray,
    napiBind.bind (.Native .enumeration) [.Native .pointer, .Native .size_t, .Native .pointer,
      .Native .size_t, .Wasm .pointer] .napi_create_dataview,
    napiBind.bind (.Native .enumeration) [.Native .pointer, .Native .int32_t, .Wasm .pointer]
      .napi_create_int32,
    napiBind.bind (.Native .enumeration) [.Native .pointer, .Native .uint32_t, .Wasm .pointer]
      .napi_create_uint32,
    napiBind.bind (.Native .enumeration) [.Native .pointer, .Native .int64_t, .Wasm .pointer]
      .napi_create_int64,
    napiBind.bind (.Native .enumeration) [.Native .pointer, .Native .double, .Wasm .pointer]
      .napi_create_double ] ++
  (if cfg.experimental then [
    napiBind.bind (.Native .enumeration) [.Native .pointer, .Native .int64_t, .Wasm .pointer]
      .napi_create_bigint_int64,
    napiBind.bind (.Native .enumeration) [.Native .pointer, .Native .uint64_t, .Wasm .pointer]
      .napi_create_bigint_uint64,
    napiBind.bind (.Native .enumeration) [.Native .pointer, .Native .int, .Native .size_t,
      .Wasm .pointer, .Wasm .pointer] .napi_create_bigint_words ] else []) ++
  [
    napiBind.bind (.Native .enumeration) [.Native .pointer, .Wasm .pointer, .Native .size_t,
      .Wasm .pointer] .napi_create_string_latin1,
    napiBind.bind (.Native .enumeration) [.Native .pointer, .Wasm .pointer, .Native .size_t,
      .Wasm .pointer] .napi_create_string_utf16,
    napiBind.bind (.Native .enumeration) [.Native .pointer, .Wasm .pointer, .Native .size_t,
      .Wasm .pointer] .napi_create_string_utf8,
    napiBind.bind (.Native .enumeration) [.Native .pointer, .Native .pointer, .Wasm .pointer]
      .napi_get_array_length,
    exportFn .I32 [.I32, .I32, .I32, .I32] (.buffer .__napi_get_arraybuffer_info),
    exportFn .I32 [.I32, .I32, .I32, .I32] (.buffer .__napi_get_buffer_info),
    napiBind.bind (.Native .enumeration) [.Native .pointer, .Native .pointer, .Wasm .pointer]
      .napi_get_prototype,
    napiBind.bind (.Native .enumeration) [.Native .pointer, .Native .pointer, .Wasm .pointer,
      .Wasm .pointer, .Wasm .pointer, .Wasm .pointer, .Wasm .pointer]
      .napi_get_typedarray_info,
    napiBind.bind (.Native .enumeration) [.Native .pointer, .Native .pointer, .Wasm .pointer,
      .Wasm .pointer, .Wasm .pointer, .Wasm .pointer] .napi_get_dataview_info ] ++
  (if cfg.exerimental then [
    napiBind.bind (.Native .enumeration) [.Native .pointer, .Native .pointer, .Wasm .pointer]
      .napi_get_date_value ] else []) ++
  [
    napiBind.bind (.Native .enumeration) [.Native .pointer, .Native .pointer, .Wasm .pointer]
      .napi_get_value_bool,
    napiBind.bind (.Native .enumeration) [.Native .pointer, .Native .pointer, .Wasm .pointer]
      .napi_get_value_double ] ++
  (if cfg.experimental then [
    napiBind.bind (.Native .enumeration) [.Native .pointer, .Native .pointer, .Wasm .pointer,
      .Wasm .pointer] .napi_get_value_bigint_int64,
    napiBind.bind (.Native .enumeration) [.Native .pointer, .Native .pointer, .Wasm .pointer,
      .Wasm .pointer] .napi_get_value_bigint_uint64,
    napiBind.bind (.Native .enumeration) [.Native .pointer, .Native .pointer, .Wasm .pointer,
      .Wasm .pointer, .Wasm .pointer] .napi_get_value_bigint_words ] else []) ++
  [
    napiBind.bind (.Native .enumeration) [.Native .pointer, .Native .pointer, .Wasm .pointer]
      .napi_get_value_external,
    napiBind.bind (.Native .enumeration) [.Native .pointer, .Native .pointer, .Wasm .pointer]
      .napi_get_value_int32,
    napiBind.bind (.Native .enumeration) [.Native .pointer, .Native .pointer, .Wasm .pointer]
      .napi_get_value_uint32,
    napiBind.bind (.Native .enumeration) [.Native .pointer, .Native .pointer, .Wasm .pointer]
      .napi_get_value_int64,
    napiBind.bind (.Native .enumeration) [.Native .pointer, .Native .pointer, .Wasm .pointer,
      .Native .size_t, .Wasm .pointer] .napi_get_value_string_latin1,
    napiBind.bind (.Native .enumeration) [.Native .pointer, .Native .pointer, .Wasm .pointer,
      .Native .size_t, .Wasm .pointer] .napi_get_value_string_utf8,
    napiBind.bind (.Native .enumeration) [.Native .pointer, .Native .pointer, .Wasm .pointer,
      .Native .size_t, .Wasm .pointer] .napi_get_value_string_utf16,
    napiBind.bind (.Native .enumeration) [.Native .pointer, .Native .bool, .Wasm .pointer]
      .napi_get_boolean,
    napiBind.bind (.Native .enumeration) [.Native .pointer, .Wasm .pointer] .napi_get_global,
    napiBind.bind (.Native .enumeration) [.Native .pointer, .Wasm .pointer] .napi_get_null,
    napiBind.bind (.Native .enumeration) [.Native .pointer, .Wasm .pointer]
      .napi_get_undefined,
    napiBind.bind (.Native .enumeration) [.Native .pointer, .Native .pointer, .Wasm .pointer]
      .napi_coerce_to_bool,
    napiBind.bind (.Native .enumeration) [.Native .pointer, .Native .pointer, .Wasm .pointer]
      .napi_coerce_to_number,
    napiBind.bind (.Native .enumeration) [.Native .pointer, .Native .pointer, .Wasm .pointer]
      .napi_coerce_to_object,
    napiBind.bind (.Native .enumeration) [.Native .pointer, .Native .pointer, .Wasm .pointer]
      .napi_coerce_to_string,
    napiBind.bind (.Native .enumeration) [.Native .pointer, .Native .pointer, .Wasm .pointer]
      .napi_typeof,
    napiBind.bind (.Native .enumeration) [.Native .pointer, .Native .pointer,
      .Native .pointer, .Wasm .pointer] .napi_instanceof,
    napiBind.bind (.Native .enumeration) [.Native .pointer, .Native .pointer, .Wasm .pointer]
      .napi_is_array,
    napiBind.bind (.Native .enumeration) [.Native .pointer, .Native .pointer, .Wasm .pointer]
      .napi_is_arraybuffer,
    napiBind.bind (.Native .enumeration) [.Native .pointer, .Native .pointer, .Wasm .pointer]
      .napi_is_buffer ] ++
  (if cfg.experimental then [
    napiBind.bind (.Native .enumeration) [.Native .pointer, .Native .pointer, .Wasm .pointer]
      .napi_is_date ] else []) ++
  [
    napiBind.bind (.Native .enumeration) [.Native .pointer, .Native .pointer, .Wasm .pointer]
      .napi_is_error,
    napiBind.bind (.Native .enumeration) [.Native .pointer, .Native .pointer, .Wasm .pointer]
      .napi_is_typedarray,
    napiBind.bind (.Native .enumeration) [.Native .pointer, .Native .pointer, .Wasm .pointer]
      .napi_is_dataview,
    napiBind.bind (.Native .enumeration) [.Native .pointer, .Native .pointer,
      .Native .pointer, .Wasm .pointer] .napi_strict_equals,
    napiBind.bind (.Native .enumeration) [.Native .pointer, .Native .pointer, .Wasm .pointer]
      .napi_get_property_names,
    napiBind.bind (.Native .enumeration) [.Native .pointer, .Native .pointer,
      .Native .pointer, .Native .pointer] .napi_set_property,
    napiBind.bind (.Native .enumeration) [.Native .pointer, .Native .pointer,
      .Native .pointer, .Wasm .pointer] .napi_get_property,
    napiBind.bind (.Native .enumeration) [.Native .pointer, .Native .pointer,
      .Native .pointer, .Wasm .pointer] .napi_has_property,
    napiBind.bind (.Native .enumeration) [.Native .pointer, .Native .pointer,
      .Native .pointer, .Wasm .pointer] .napi_delete_property,
    napiBind.bind (.Native .enumeration) [.Native .pointer, .Native .pointer,
      .Native .pointer, .Wasm .pointer] .napi_has_own_property,
    napiBind.bind (.Native .enumeration) [.Native .pointer, .Native .pointer, .Wasm .pointer,
      .Native .pointer] .napi_set_named_property,
    napiBind.bind (.Native .enumeration) [.Native .pointer, .Native .pointer, .Wasm .pointer,
      .Wasm .pointer] .napi_get_named_property,
    napiBind.bind (.Native .enumeration) [.Native .pointer, .Native .pointer, .Wasm .pointer,
      .Wasm .pointer] .napi_has_named_property,
    napiBind.bind (.Native .enumeration) [.Native .pointer, .Native .pointer,
      .Native .uint32_t, .Native .pointer] .napi_set_element,
    napiBind.bind (.Native .enumeration) [.Native .pointer, .Native .pointer,
      .Native .uint32_t, .Wasm .pointer] .napi_get_element,
    napiBind.bind (.Native .enumeration) [.Native .pointer, .Native .pointer,
      .Native .uint32_t, .Wasm .pointer] .napi_has_element,
    napiBind.bind (.Native .enumeration) [.Native .pointer, .Native .pointer,
      .Native .uint32_t, .Wasm .pointer] .napi_delete_element,
    napiBind.bind (.Native .enumeration) [.Native .pointer, .Native .pointer, .Native .size_t,
      .Wasm .pointer] .napi_define_properties,
    napiBind.bind (.Native .enumeration) [.Native .pointer, .Native .pointer,
      .Native .pointer, .Native .size_t, .Wasm .pointer, .Wasm .pointer] .napi_call_function,
    napiBind.bind (.Native .enumeration) [.Native .pointer, .Wasm .pointer, .Native .size_t,
      .Wasm .pointer, .Wasm .pointer, .Wasm .pointer] .napi_create_function,
    napiBind.bind (.Native .enumeration) [.Native .pointer, .Native .pointer, .Wasm .pointer,
      .Wasm .pointer, .Wasm .pointer, .Wasm .pointer] .napi_get_cb_info,
    napiBind.bind (.Native .enumeration) [.Native .pointer, .Native .pointer, .Wasm .pointer]
      .napi_get_new_target,
    napiBind.bind (.Native .enumeration) [.Native .pointer, .Native .pointer, .Native .size_t,
      .Wasm .pointer, .Wasm .pointer] .napi_new_instance,
    napiBind.bind (.Native .enumeration) [.Native .pointer, .Wasm .pointer, .Native .size_t,
      .Wasm .pointer, .Wasm .pointer, .Native .size_t, .Wasm .pointer, .Wasm .pointer]
      .napi_define_class,
    napiBind.bind (.Native .enumeration) [.Native .pointer, .Native .pointer, .Wasm .pointer,
      .Wasm .pointer, .Wasm .pointer, .Wasm .pointer] .napi_wrap,
    napiBind.bind (.Native .enumeration) [.Native .pointer, .Native .pointer, .Wasm .pointer]
      .napi_unwrap,
    napiBind.bind (.Native .enumeration) [.Native .pointer, .Native .pointer, .Wasm .pointer]
      .napi_remove_wrap ] ++
  (if cfg.experimental then [
    napiBind.bind (.Native .enumeration) [.Native .pointer, .Native .pointer, .Wasm .pointer,
      .Wasm .pointer, .Wasm .pointer, .Wasm .pointer] .napi_add_finalizer ] else []) ++
  [
    napiBind.bind (.Native .enumeration) [.Native .pointer, .Native .pointer,
      .Native .pointer, .Wasm .pointer, .Wasm .pointer, .Wasm .pointer, .Wasm .pointer]
      .napi_create_async_work,
    napiBind.bind (.Native .enumeration) [.Native .pointer, .Native .pointer]
      .napi_delete_async_work,
    napiBind.bind (.Native .enumeration) [.Native .pointer, .Native .pointer]
      .napi_queue_async_work,
    napiBind.bind (.Native .enumeration) [.Native .pointer, .Native .pointer]
      .napi_cancel_async_work,
    napiBind.bind (.Native .enumeration) [.Native .pointer, .Native .pointer,
      .Native .pointer, .Wasm .pointer] .napi_async_init,
    napiBind.bind (.Native .enumeration) [.Native .pointer, .Native .pointer]
      .napi_async_destroy,
    napiBind.bind (.Native .enumeration) [.Native .pointer, .Native .pointer,
      .Native .pointer, .Native .pointer, .Native .size_t, .Wasm .pointer, .Wasm .pointer]
      .napi_make_callback,
    napiBind.bind (.Native .enumeration) [.Native .pointer, .Native .pointer,
      .Native .pointer, .Wasm .pointer] .napi_open_callback_scope,
    napiBind.bind (.Native .enumeration) [.Native .pointer, .Native .pointer]
      .napi_close_callback_scope,
    napiBind.bind (.Native .enumeration) [.Native .pointer, .Wasm .pointer]
      .napi_get_node_version,
    napiBind.bind (.Native .enumeration) [.Native .pointer, .Wasm .pointer] .napi_get_version,
    napiBind.bind (.Native .enumeration) [.Native .pointer, .Native .int64_t, .Wasm .pointer]
      .napi_adjust_external_memory,
    napiBind.bind (.Native .enumeration) [.Native .pointer, .Wasm .pointer, .Wasm .pointer]
      .napi_create_promise,
    napiBind.bind (.Native .enumeration) [.Native .pointer, .Native .pointer,
      .Native .pointer] .napi_resolve_deferred,
    napiBind.bind (.Native .enumeration) [.Native .pointer, .Native .pointer,
      .Native .pointer] .napi_reject_deferred,
    napiBind.bind (.Native .enumeration) [.Native .pointer, .Native .pointer, .Wasm .pointer]
      .napi_is_promise,
    napiBind.bind (.Native .enumeration) [.Native .pointer, .Native .pointer, .Wasm .pointer]
      .napi_run_script,
    napiBind.bind (.Native .enumeration) [.Native .pointer, .Wasm .pointer]
      .napi_get_uv_event_loop,
    napiBind.bind (.Native .enumeration) [.Native .pointer, .Native .pointer,
      .Native .pointer, .Native .pointer, .Native .size_t, .Native .size_t, .Wasm .pointer,
      .Wasm .pointer, .Wasm .pointer, .Wasm .pointer, .Wasm .pointer]
      .napi_create_threadsafe_function,
    napiBind.bind (.Native .enumeration) [.Native .pointer, .Wasm .pointer]
      .napi_get_threadsafe_function_context,
    napiBind.bind (.Native .enumeration) [.Native .pointer, .Wasm .pointer,
      .Native .enumeration] .napi_call_threadsafe_function,
    napiBind.bind (.Native .enumeration) [.Native .pointer] .napi_acquire_threadsafe_function,
    napiBind.bind (.Native .enumeration) [.Native .pointer, .Native .enumeration]
      .napi_release_threadsafe_function,
    napiBind.bind (.Native .enumeration) [.Native .pointer, .Native .pointer]
      .napi_ref_threadsafe_function,
    napiBind.bind (.Native .enumeration) [.Native .pointer, .Native .pointer]
      .napi_unref_threadsafe_function ]

/-- The native API functions of the import table, in the order of the table. -/
def provideNapi.bound (cfg : BuildConfig) : List NapiFn :=
  (provideNapi.imports cfg).map (fun h => boundFunction h.cb)

/-! ## Facts about the generic trampoline -/

theorem getArg_append (pre rest : List Val) (v : Val) :
    getArg (pre ++ v :: rest) pre.length = .ok v := by
  have h : (pre ++ v :: rest)[pre.length]? = some v := by
    rw [List.getElem?_append_right (le_refl _)]
    simp
  simp only [getArg, h]

theorem napiUnwrap_ok (A : Marker) (v : Val) (w : World)
    (hk : v.kind = wasmType (kind A)) (hp : ∀ T, A = .Wasm T → wasmType T = .I32) :
    ∃ x, napiUnwrap A v w = .ok x := by
  cases A with
  | Native T =>
    cases v <;> cases T <;>
      simp [napiUnwrap, napiCast, is_wasm_v, kind, wasmType, Val.kind, Val.get_i32,
        Val.get_f32, Val.get_f64, bind, Except.bind, pure, Except.pure] at hk ⊢
  | Wasm T =>
    have h := hp T rfl
    cases v with
    | i32 a => exact ⟨_, by simp [napiUnwrap, is_wasm_v, Val.get_i32, bind, Except.bind]; rfl⟩
    | f32 b => simp [kind, Val.kind, h] at hk
    | f64 b => simp [kind, Val.kind, h] at hk

theorem unwrapPack_ok (w : World) (Args : List Marker) :
    ∀ (pre rest : List Val), rest.map Val.kind = paramKinds Args →
      (∀ T, Marker.Wasm T ∈ Args → wasmType T = .I32) →
      ∃ vals, unwrapPack Args (pre ++ rest) w pre.length = .ok vals ∧
        List.zipWith (fun A v => napiUnwrap A v w) Args rest = vals.map Except.ok := by
  induction Args with
  | nil =>
    intro pre rest _ _
    exact ⟨[], by simp [unwrapPack, pure, Except.pure], by simp⟩
  | cons A As ih =>
    intro pre rest hk hp
    cases rest with
    | nil => simp [paramKinds] at hk
    | cons v tl =>
      simp only [paramKinds, List.map_cons, List.cons.injEq] at hk
      obtain ⟨x, hx⟩ := napiUnwrap_ok A v w hk.1
        (fun T hT => hp T (by rw [hT]; exact List.mem_cons_self _ _))
      obtain ⟨xs, hxs, hz⟩ := ih (pre ++ [v]) tl hk.2
        (fun T hT => hp T (List.mem_cons_of_mem _ hT))
      refine ⟨x :: xs, ?_, ?_⟩
      · have e : pre ++ v :: tl = (pre ++ [v]) ++ tl := by simp
        have hl : (pre ++ [v]).length = pre.length + 1 := by simp
        rw [hl, ← e] at hxs
        simp [unwrapPack, getArg_append, hx, hxs, bind, Except.bind, pure, Except.pure]
      · simp [hx, hz]

theorem is_void_v_cls (K : Marker) : is_void_v (.cls K) = false := by
  cases K <;> rfl

theorem apply_eq (Result : Marker) (Args : List Marker) (fn : NativeFn)
    (args : List Val) (w : World) (vals : List NativeVal)
    (hv : unwrapPack Args args w 0 = .ok vals) :
    napiApply.apply Result Args fn args w
      = if is_void_v (.plain (kind Result)) then .ok (invoke fn vals w)
        else .error (.noReturn (invoke fn vals w).2) := by
  simp only [napiApply.apply, hv]

theorem call_eq (Result : Marker) (Args : List Marker) (fn : NativeFn)
    (args results : List Val) (w : World) (vals : List NativeVal)
    (hv : unwrapPack Args args w 0 = .ok vals) :
    napiCall.call Result Args fn args results w
      = if is_void_v (.plain (kind Result)) then .ok (none, results, (invoke fn vals w).2)
        else .error (.noReturn (invoke fn vals w).2) := by
  simp only [napiCall.call, is_void_v_cls, apply_eq Result Args fn args w vals hv]
  by_cases h : is_void_v (.plain (kind Result)) = true <;> simp [h]

theorem call_cases (Result : Marker) (Args : List Marker) (fn : NativeFn)
    (args results : List Val) (w : World) :
    (∃ e, napiCall.call Result Args fn args results w = .error e) ∨
    (∃ w1, napiCall.call Result Args fn args results w = .ok (none, results, w1)) := by
  simp only [napiCall.call, is_void_v_cls]
  cases napiApply.apply Result Args fn args w with
  | error e => exact Or.inl ⟨e, by simp⟩
  | ok r => exact Or.inr ⟨r.2, by simp⟩

/-! ## Facts about the hand-written bindings -/

theorem create_arraybuffer_fail (rt : NativeApi) (a0 a1 a2 a3 : Int) (rest : List Val)
    (r0 : Val) (rs : List Val) (w : World) (h : rt.malloc (toSizeT a1) % WORD = 0) :
    __napi_create_arraybuffer rt (.i32 a0 :: .i32 a1 :: .i32 a2 :: .i32 a3 :: rest)
        (r0 :: rs) w
      = .ok (none, .i32 rt.napi_generic_failure :: rs,
          { base := w.base, size := w.size, bytes := w.bytes,
            log := w.log ++ [.malloc (toSizeT a1) 0] }) := by
  simp [__napi_create_arraybuffer, getArg, Val.get_i32, setResult, World.logged, h,
    bind, Except.bind, pure, Except.pure]

theorem create_arraybuffer_reg (rt : NativeApi) (a0 a1 a2 a3 : Int) (rest : List Val)
    (r0 : Val) (rs : List Val) (w : World) (buffer : Nat) (st : Int) (m1 : Mem)
    (hb : rt.malloc (toSizeT a1) % WORD = buffer) (hnz : buffer ≠ 0)
    (hr : rt.napi_create_external_arraybuffer (toPtr a0) buffer (toSizeT a1) .finalizeBuffer 0
      (ptrAdd w.base a3) w.bytes = (st, m1)) :
    __napi_create_arraybuffer rt (.i32 a0 :: .i32 a1 :: .i32 a2 :: .i32 a3 :: rest)
        (r0 :: rs) w
      = .ok (none, .i32 st :: rs,
          if st = napi_ok then
            { base := w.base, size := w.size,
              bytes := store64 m1 (ptrAdd w.base a2) buffer,
              log := w.log ++ [.malloc (toSizeT a1) buffer,
                .napi_create_external_arraybuffer (toPtr a0) buffer (toSizeT a1)
                  .finalizeBuffer 0 (ptrAdd w.base a3) st,
                .store (ptrAdd w.base a2) buffer] }
          else
            { base := w.base, size := w.size, bytes := m1,
              log := w.log ++ [.malloc (toSizeT a1) buffer,
                .napi_create_external_arraybuffer (toPtr a0) buffer (toSizeT a1)
                  .finalizeBuffer 0 (ptrAdd w.base a3) st] }) := by
  simp [__napi_create_arraybuffer, getArg, Val.get_i32, setResult, World.logged,
    bind, Except.bind, pure, Except.pure, hb, hnz, hr]
  split <;> simp_all

theorem create_buffer_fail (rt : NativeApi) (a0 a1 a2 a3 : Int) (rest : List Val)
    (r0 : Val) (rs : List Val) (w : World) (h : rt.malloc (toSizeT a1) % WORD = 0) :
    __napi_create_buffer rt (.i32 a0 :: .i32 a1 :: .i32 a2 :: .i32 a3 :: rest) (r0 :: rs) w
      = .ok (none, .i32 rt.napi_generic_failure :: rs,
          { base := w.base, size := w.size, bytes := w.bytes,
            log := w.log ++ [.malloc (toSizeT a1) 0] }) := by
  simp [__napi_create_buffer, getArg, Val.get_i32, setResult, World.logged, h,
    bind, Except.bind, pure, Except.pure]

theorem create_buffer_reg (rt : NativeApi) (a0 a1 a2 a3 : Int) (rest : List Val)
    (r0 : Val) (rs : List Val) (w : World) (buffer : Nat) (st : Int) (m1 : Mem)
    (hb : rt.malloc (toSizeT a1) % WORD = buffer) (hnz : buffer ≠ 0)
    (hr : rt.napi_create_external_buffer (toPtr a0) (toSizeT a1) buffer .finalizeBuffer 0
      (ptrAdd w.base a3) w.bytes = (st, m1)) :
    __napi_create_buffer rt (.i32 a0 :: .i32 a1 :: .i32 a2 :: .i32 a3 :: rest) (r0 :: rs) w
      = .ok (none, .i32 st :: rs,
          if st = napi_ok then
            { base := w.base, size := w.size,
              bytes := store64 m1 (ptrAdd w.base a2) buffer,
              log := w.log ++ [.malloc (toSizeT a1) buffer,
                .napi_create_external_buffer (toPtr a0) (toSizeT a1) buffer
                  .finalizeBuffer 0 (ptrAdd w.base a3) st,
                .store (ptrAdd w.base a2) buffer] }
          else
            { base := w.base, size := w.size, bytes := m1,
              log := w.log ++ [.malloc (toSizeT a1) buffer,
                .napi_create_external_buffer (toPtr a0) (toSizeT a1) buffer
                  .finalizeBuffer 0 (ptrAdd w.base a3) st] }) := by
  simp [__napi_create_buffer, getArg, Val.get_i32, setResult, World.logged,
    bind, Except.bind, pure, Except.pure, hb, hnz, hr]
  split <;> simp_all

theorem create_buffer_copy_fail (rt : NativeApi) (a0 a1 a2 a3 a4 : Int) (rest : List Val)
    (r0 : Val) (rs : List Val) (w : World) (h : rt.malloc (toSizeT a1) % WORD = 0) :
    __napi_create_buffer_copy rt
        (.i32 a0 :: .i32 a1 :: .i32 a2 :: .i32 a3 :: .i32 a4 :: rest) (r0 :: rs) w
      = .ok (none, .i32 rt.napi_generic_failure :: rs,
          { base := w.base, size := w.size, bytes := w.bytes,
            log := w.log ++ [.malloc (toSizeT a1) 0] }) := by
  simp [__napi_create_buffer_copy, getArg, Val.get_i32, setResult, World.logged, h,
    bind, Except.bind, pure, Except.pure]

theorem create_buffer_copy_reg (rt : NativeApi) (a0 a1 a2 a3 a4 : Int) (rest : List Val)
    (r0 : Val) (rs : List Val) (w : World) (buffer : Nat) (st : Int) (m1 : Mem)
    (hb : rt.malloc (toSizeT a1) % WORD = buffer) (hnz : buffer ≠ 0)
    (hr : rt.napi_create_external_buffer (toPtr a0) (toSizeT a1) buffer .finalizeBuffer 0
      (ptrAdd w.base a4) w.bytes = (st, m1)) :
    __napi_create_buffer_copy rt
        (.i32 a0 :: .i32 a1 :: .i32 a2 :: .i32 a3 :: .i32 a4 :: rest) (r0 :: rs) w
      = .ok (none, .i32 st :: rs,
          if st = napi_ok then
            { base := w.base, size := w.size,
              bytes := store64 (memcpy m1 buffer (ptrAdd w.base a2) (toSizeT a1))
                (ptrAdd w.base a3) buffer,
              log := w.log ++ [.malloc (toSizeT a1) buffer,
                .napi_create_external_buffer (toPtr a0) (toSizeT a1) buffer
                  .finalizeBuffer 0 (ptrAdd w.base a4) st,
                .memcpy buffer (ptrAdd w.base a2) (toSizeT a1),
                .store (ptrAdd w.base a3) buffer] }
          else
            { base := w.base, size := w.size, bytes := m1,
              log := w.log ++ [.malloc (toSizeT a1) buffer,
                .napi_create_external_buffer (toPtr a0) (toSizeT a1) buffer
                  .finalizeBuffer 0 (ptrAdd w.base a4) st] }) := by
  simp [__napi_create_buffer_copy, getArg, Val.get_i32, setResult, World.logged,
    bind, Except.bind, pure, Except.pure, hb, hnz, hr]
  split <;> simp_all

theorem get_arraybuffer_info_eq (rt : NativeApi) (a0 a1 a2 a3 : Int) (rest : List Val)
    (r0 : Val) (rs : List Val) (w : World) (st : Int) (m1 : Mem)
    (hr : rt.napi_get_arraybuffer_info (toPtr a0) (toPtr a1) (ptrAdd w.base a2)
      (ptrAdd w.base a3) w.bytes = (st, m1)) :
    __napi_get_arraybuffer_info rt (.i32 a0 :: .i32 a1 :: .i32 a2 :: .i32 a3 :: rest)
        (r0 :: rs) w
      = .ok (none, .i32 st :: rs,
          if st = napi_ok then
            { base := w.base, size := w.size,
              bytes := store64 m1 (ptrAdd w.base a2)
                (ptrSub (load64 m1 (ptrAdd w.base a2)) (ptrAdd w.base 0)),
              log := w.log ++ [.napi_get_arraybuffer_info (toPtr a0) (toPtr a1)
                  (ptrAdd w.base a2) (ptrAdd w.base a3) st,
                .store (ptrAdd w.base a2)
                  (ptrSub (load64 m1 (ptrAdd w.base a2)) (ptrAdd w.base 0))] }
          else
            { base := w.base, size := w.size, bytes := m1,
              log := w.log ++ [.napi_get_arraybuffer_info (toPtr a0) (toPtr a1)
                  (ptrAdd w.base a2) (ptrAdd w.base a3) st] }) := by
  simp [__napi_get_arraybuffer_info, getArg, Val.get_i32, setResult, World.logged,
    bind, Except.bind, pure, Except.pure, hr]

theorem get_buffer_info_eq (rt : NativeApi) (a0 a1 a2 a3 : Int) (rest : List Val)
    (r0 : Val) (rs : List Val) (w : World) (st : Int) (m1 : Mem)
    (hr : rt.napi_get_buffer_info (toPtr a0) (toPtr a1) (ptrAdd w.base a2)
      (ptrAdd w.base a3) w.bytes = (st, m1)) :
    __napi_get_buffer_info rt (.i32 a0 :: .i32 a1 :: .i32 a2 :: .i32 a3 :: rest)
        (r0 :: rs) w
      = .ok (none, .i32 st :: rs,
          if st = napi_ok then
            { base := w.base, size := w.size,
              bytes := store64 m1 (ptrAdd w.base a2)
                (ptrSub (load64 m1 (ptrAdd w.base a2)) (ptrAdd w.base 0)),
              log := w.log ++ [.napi_get_buffer_info (toPtr a0) (toPtr a1)
                  (ptrAdd w.base a2) (ptrAdd w.base a3) st,
                .store (ptrAdd w.base a2)
                  (ptrSub (load64 m1 (ptrAdd w.base a2)) (ptrAdd w.base 0))] }
          else
            { base := w.base, size := w.size, bytes := m1,
              log := w.log ++ [.napi_get_buffer_info (toPtr a0) (toPtr a1)
                  (ptrAdd w.base a2) (ptrAdd w.base a3) st] }) := by
  simp [__napi_get_buffer_info, getArg, Val.get_i32, setResult, World.logged,
    bind, Except.bind, pure, Except.pure, hr]

/-! ## Facts about host memory -/

theorem load64_store64_same (m : Mem) (a v : Nat) :
    load64 (store64 m a v) a = v % WORD := by
  simp only [load64, store64, byteAt, WORD]
  simp
  omega

theorem load64_store64_disjoint (m : Mem) (a b v : Nat) (h : a + 8 ≤ b ∨ b + 8 ≤ a) :
    load64 (store64 m a v) b = load64 m b := by
  have e : ∀ k, k < 8 → store64 m a v (b + k) = m (b + k) := by
    intro k hk
    have : ¬ (a ≤ b + k ∧ b + k < a + 8) := by omega
    simp [store64, this]
  have e0 := e 0 (by omega)
  simp only [Nat.add_zero] at e0
  simp only [load64, e0, e 1 (by omega), e 2 (by omega), e 3 (by omega), e 4 (by omega),
    e 5 (by omega), e 6 (by omega), e 7 (by omega)]

/-! ## The generic trampoline: claims C1, C2 and C10 -/

/-- C1, the code at the binding of Scenario B (declared return a raw 32-bit integer, one
argument marked as a guest address): the trampoline is called with the input [16] and the
output array [99].  The store of the wrapped result into slot 0 is guarded by is_void_v of
the wrapper class Native<int32_t>, which is false for every wrapper, so that branch is not
part of the trampoline.  The native function is called with the pointer base + 16 and
returns 7, whose wrapped form is the Int32 value 7; control then flows off the end of
napiApply::apply and the trampoline hands no output array back.  On no path of any generic
trampoline is slot 0 assigned: a call either does not return or returns the output array
it received. -/
theorem C1_nonvoid_return_not_stored :
    is_void_v (.cls (.Native .int32_t)) = false ∧
    napiCall.call (.Native .int32_t) [.Wasm .pointer] demoFn [.i32 16] [.i32 99] demoWorld
      = .error (.noReturn
          { base := demoWorld.base, size := demoWorld.size, bytes := demoWorld.bytes,
            log := [.native [.ptr 21474836496]] }) ∧
    (demoFn [.ptr 21474836496] demoWorld.bytes).1 = .int 7 ∧
    napiWrap (.Native .int32_t) (.int 7) = .i32 7 ∧
    (∀ (Result : Marker) (Args : List Marker) (fn : NativeFn) (args results : List Val)
        (w : World),
      (∃ e, napiCall.call Result Args fn args results w = .error e) ∨
      (∃ w1, napiCall.call Result Args fn args results w = .ok (none, results, w1))) := by
  refine ⟨rfl, rfl, rfl, ?_, call_cases⟩
  decide

/-- C2: for a generic binding whose Wasm<> arguments wrap types declared as Int32 (any type
but float and double, to which the pointer cast does not apply), called with inputs of the
declared kinds, the native function is invoked exactly once, with the argument list vals in
which position i holds
napiUnwrap<Args_i>(args[i]); at every position marked Wasm<T> whose input is the Int32
value a, the argument is the pointer base + a (pointer arithmetic on 64-bit addresses,
which is the plain sum whenever that sum is an address), base being memory->data() at the
time of the call.  After the native function has returned, the trampoline returns the null
trap when kind<Result> is void, and control flows off the end of napiApply::apply when it
is not; in both cases the world is the one the native function left, with the one call in
its log. -/
theorem C2_wasm_argument_is_base_plus_offset (Result : Marker) (Args : List Marker)
    (fn : NativeFn) (args results : List Val) (w : World)
    (hk : args.map Val.kind = paramKinds Args)
    (hp : ∀ T, Marker.Wasm T ∈ Args → wasmType T = .I32) :
    ∃ vals,
      napiCall.call Result Args fn args results w
        = (if is_void_v (.plain (kind Result)) then
            .ok (none, results,
              { base := w.base, size := w.size, bytes := (fn vals w.bytes).2,
                log := w.log ++ [.native vals] })
          else
            .error (.noReturn
              { base := w.base, size := w.size, bytes := (fn vals w.bytes).2,
                log := w.log ++ [.native vals] })) ∧
      List.zipWith (fun A v => napiUnwrap A v w) Args args = vals.map Except.ok ∧
      ∀ (i : Nat) (T : CType) (a : Int),
        Args[i]? = some (Marker.Wasm T) → args[i]? = some (Val.i32 a) →
        vals[i]? = some (NativeVal.ptr (ptrAdd w.base a)) ∧
        (0 ≤ (w.base : Int) + a → (w.base : Int) + a < 2 ^ 64 →
          ((ptrAdd w.base a : Nat) : Int) = (w.base : Int) + a) := by
  obtain ⟨vals, hv, hz⟩ := unwrapPack_ok w Args [] args hk hp
  simp only [List.nil_append, List.length_nil] at hv
  refine ⟨vals, ?_, hz, ?_⟩
  · rw [call_eq Result Args fn args results w vals hv]
    rfl
  · intro i T a hA ha
    constructor
    · have h1 := congrArg (fun l => l[i]?) hz
      simp only [List.getElem?_zipWith, hA, ha, List.getElem?_map] at h1
      cases hvi : vals[i]? with
      | none => simp [hvi] at h1
      | some x =>
        simp only [hvi, Option.map_some', Option.some.injEq] at h1
        simp only [napiUnwrap, is_wasm_v, Val.get_i32, bind, Except.bind, pure, Except.pure,
          if_true] at h1
        injection h1 with h1
        rw [h1]
    · intro h0 h1
      unfold ptrAdd
      rw [Int.toNat_of_nonneg (Int.emod_nonneg _ (by norm_num))]
      exact Int.emod_eq_of_lt h0 h1

/-- C2 at Scenario B: the binding with one argument marked as a guest address, called with
the input [16] in a world whose memory starts at 21474836480, invokes the native function
with the pointer 21474836496 (and, its return type not being void, does not return). -/
theorem C2_wasm_argument_is_base_plus_offset_witness :
    [Val.i32 16].map Val.kind = paramKinds [.Wasm .pointer] ∧
    ∃ vals,
      napiCall.call (.Native .int32_t) [.Wasm .pointer] demoFn [.i32 16] [.i32 99] demoWorld
        = .error (.noReturn
            { base := demoWorld.base, size := demoWorld.size,
              bytes := (demoFn vals demoWorld.bytes).2,
              log := demoWorld.log ++ [.native vals] }) ∧
      vals[0]? = some (.ptr 21474836496) := by
  refine ⟨rfl, ?_⟩
  obtain ⟨vals, h1, _, h3⟩ := C2_wasm_argument_is_base_plus_offset (.Native .int32_t)
    [.Wasm .pointer] demoFn [.i32 16] [.i32 99] demoWorld rfl
    (by intro T hT; simp at hT; subst hT; rfl)
  exact ⟨vals, h1, (h3 0 .pointer 16 rfl rfl).1⟩

/-- C10: for a generic binding declared with the return type Native<void> (its Wasm<>
arguments wrapping types declared as Int32) and called with inputs of the declared kinds,
the trampoline invokes the native function once, on the
unwrapped arguments, and returns the output array exactly as it received it. -/
theorem C10_void_binding_leaves_outputs (Args : List Marker) (fn : NativeFn)
    (args results : List Val) (w : World)
    (hk : args.map Val.kind = paramKinds Args)
    (hp : ∀ T, Marker.Wasm T ∈ Args → wasmType T = .I32) :
    ∃ vals,
      unwrapPack Args args w 0 = .ok vals ∧
      napiCall.call (.Native .void) Args fn args results w
        = .ok (none, results,
            { base := w.base, size := w.size, bytes := (fn vals w.bytes).2,
              log := w.log ++ [.native vals] }) := by
  obtain ⟨vals, hv, _⟩ := unwrapPack_ok w Args [] args hk hp
  simp only [List.nil_append, List.length_nil] at hv
  refine ⟨vals, hv, ?_⟩
  rw [call_eq (.Native .void) Args fn args results w vals hv]
  rfl

/-- C10 at the binding of napi_fatal_error (two guest strings, each followed by its
length): the call is made and the output array [99] comes back unchanged. -/
theorem C10_void_binding_leaves_outputs_witness :
    [Val.i32 16, Val.i32 5, Val.i32 32, Val.i32 7].map Val.kind
      = paramKinds [.Wasm .pointer, .Native .size_t, .Wasm .pointer, .Native .size_t] ∧
    ∃ vals,
      unwrapPack [.Wasm .pointer, .Native .size_t, .Wasm .pointer, .Native .size_t]
        [.i32 16, .i32 5, .i32 32, .i32 7] demoWorld 0 = .ok vals ∧
      napiCall.call (.Native .void)
          [.Wasm .pointer, .Native .size_t, .Wasm .pointer, .Native .size_t] demoFn
          [.i32 16, .i32 5, .i32 32, .i32 7] [.i32 99] demoWorld
        = .ok (none, [.i32 99],
            { base := demoWorld.base, size := demoWorld.size,
              bytes := (demoFn vals demoWorld.bytes).2,
              log := demoWorld.log ++ [.native vals] }) :=
  ⟨rfl, C10_void_binding_leaves_outputs
    [.Wasm .pointer, .Native .size_t, .Wasm .pointer, .Native .size_t] demoFn
    [.i32 16, .i32 5, .i32 32, .i32 7] [.i32 99] demoWorld rfl
    (by intro T hT; simp at hT; subst hT; rfl)⟩

/-! ## Pointer translation: claim C3 -/

theorem roundtrip_value (b o : Nat) :
    ptrSub (ptrAdd b (toInt32 o)) (ptrAdd b 0)
      = ((toInt32 (o : Int)) % (2 : Int) ^ 64).toNat := by
  unfold ptrSub ptrAdd
  omega

/-- C3 as it holds: for every offset o below the current memory size (at most 2^32), the
pointer built from the Int32 wire form of o is base plus that signed wire value, and
translating it back by subtracting &memory->data()[0] yields exactly o when o is below
2^31, and o + 2^64 - 2^32 when o is 2^31 or more; in both cases the low 32 bits of the
result are o. -/
theorem C3_roundtrip_below_two_gib (w : World) (o : Nat)
    (ho : o < w.size) (hs : w.size ≤ 2 ^ 32) :
    napiUnwrap (.Wasm .pointer) (.i32 (toInt32 o)) w
      = .ok (.ptr (ptrAdd w.base (toInt32 o))) ∧
    (o < 2 ^ 31 → ptrSub (ptrAdd w.base (toInt32 o)) (ptrAdd w.base 0) = o) ∧
    (2 ^ 31 ≤ o → ptrSub (ptrAdd w.base (toInt32 o)) (ptrAdd w.base 0)
      = o + 2 ^ 64 - 2 ^ 32) ∧
    ptrSub (ptrAdd w.base (toInt32 o)) (ptrAdd w.base 0) % 2 ^ 32 = o := by
  have ho32 : o < 2 ^ 32 := lt_of_lt_of_le ho hs
  rw [roundtrip_value]
  refine ⟨rfl, ?_, ?_, ?_⟩ <;> (try intro h) <;> unfold toInt32 <;> omega

/-- C3 at the offset 100 of a memory that spans the whole 32-bit address space: the round
trip returns 100. -/
theorem C3_roundtrip_below_two_gib_witness :
    100 < bigWorld.size ∧ bigWorld.size ≤ 2 ^ 32 ∧
    napiUnwrap (.Wasm .pointer) (.i32 (toInt32 (100 : Nat))) bigWorld
      = .ok (.ptr (ptrAdd bigWorld.base (toInt32 (100 : Nat)))) ∧
    ptrSub (ptrAdd bigWorld.base (toInt32 (100 : Nat))) (ptrAdd bigWorld.base 0) = 100 :=
  ⟨by decide, by decide,
    (C3_roundtrip_below_two_gib bigWorld 100 (by decide) (by decide)).1,
    (C3_roundtrip_below_two_gib bigWorld 100 (by decide) (by decide)).2.1 (by decide)⟩

/-- C3 as stated fails at the offset 2^31 of a memory that spans the whole 32-bit address
space: the Int32 wire form of the offset is -2^31, the pointer built from it lies 2^31
bytes below the start of the memory, and translating it back gives 2^64 - 2^31, not
2^31. -/
theorem C3_roundtrip_counterexample :
    2147483648 < bigWorld.size ∧ bigWorld.size ≤ 2 ^ 32 ∧
    toInt32 (2147483648 : Nat) = -2147483648 ∧
    napiUnwrap (.Wasm .pointer) (.i32 (toInt32 (2147483648 : Nat))) bigWorld
      = .ok (.ptr 19327352832) ∧
    19327352832 < bigWorld.base ∧
    ptrSub 19327352832 (ptrAdd bigWorld.base 0) = 18446744071562067968 ∧
    ptrSub 19327352832 (ptrAdd bigWorld.base 0) ≠ 2147483648 := by
  refine ⟨by decide, by decide, by decide, rfl, by decide, by decide, by decide⟩

/-! ## The buffer-creation bindings: claims C4, C5 and C7 -/

/-- C4: in each of the three buffer-creation bindings, for all inputs of the declared type,
if malloc returns the null pointer then the binding returns with the generic-failure status
in output slot 0 and with host memory (hence LinearMemory) byte for byte as it was; the only
effect recorded is the call of malloc: no registration call, no copy, no store. -/
theorem C4_allocation_failure (rt : NativeApi) (a0 a1 a2 a3 a4 : Int) (rest : List Val)
    (r0 : Val) (rs : List Val) (w : World) (h : rt.malloc (toSizeT a1) = 0) :
    __napi_create_arraybuffer rt (.i32 a0 :: .i32 a1 :: .i32 a2 :: .i32 a3 :: rest)
        (r0 :: rs) w
      = .ok (none, .i32 rt.napi_generic_failure :: rs,
          { base := w.base, size := w.size, bytes := w.bytes,
            log := w.log ++ [.malloc (toSizeT a1) 0] }) ∧
    __napi_create_buffer rt (.i32 a0 :: .i32 a1 :: .i32 a2 :: .i32 a3 :: rest) (r0 :: rs) w
      = .ok (none, .i32 rt.napi_generic_failure :: rs,
          { base := w.base, size := w.size, bytes := w.bytes,
            log := w.log ++ [.malloc (toSizeT a1) 0] }) ∧
    __napi_create_buffer_copy rt
        (.i32 a0 :: .i32 a1 :: .i32 a2 :: .i32 a3 :: .i32 a4 :: rest) (r0 :: rs) w
      = .ok (none, .i32 rt.napi_generic_failure :: rs,
          { base := w.base, size := w.size, bytes := w.bytes,
            log := w.log ++ [.malloc (toSizeT a1) 0] }) := by
  have h0 : rt.malloc (toSizeT a1) % WORD = 0 := by rw [h]; rfl
  exact ⟨create_arraybuffer_fail rt a0 a1 a2 a3 rest r0 rs w h0,
    create_buffer_fail rt a0 a1 a2 a3 rest r0 rs w h0,
    create_buffer_copy_fail rt a0 a1 a2 a3 a4 rest r0 rs w h0⟩

/-- C4 with the sample allocator, which refuses a request of 8192 bytes: slot 0 receives
the status 9 and nothing but the call of malloc happens. -/
theorem C4_allocation_failure_witness :
    demoApi.malloc (toSizeT 8192) = 0 ∧
    __napi_create_arraybuffer demoApi [.i32 1, .i32 8192, .i32 100, .i32 204] [.i32 99]
        demoWorld
      = .ok (none, [.i32 9],
          { base := demoWorld.base, size := demoWorld.size, bytes := demoWorld.bytes,
            log := demoWorld.log ++ [.malloc (toSizeT 8192) 0] }) ∧
    __napi_create_buffer demoApi [.i32 1, .i32 8192, .i32 100, .i32 204] [.i32 99] demoWorld
      = .ok (none, [.i32 9],
          { base := demoWorld.base, size := demoWorld.size, bytes := demoWorld.bytes,
            log := demoWorld.log ++ [.malloc (toSizeT 8192) 0] }) ∧
    __napi_create_buffer_copy demoApi [.i32 1, .i32 8192, .i32 100, .i32 204, .i32 200]
        [.i32 99] demoWorld
      = .ok (none, [.i32 9],
          { base := demoWorld.base, size := demoWorld.size, bytes := demoWorld.bytes,
            log := demoWorld.log ++ [.malloc (toSizeT 8192) 0] }) :=
  ⟨by decide, C4_allocation_failure demoApi 1 8192 100 204 200 [] (.i32 99) [] demoWorld
    (by decide)⟩

/-! ## Status and trap: claims C8 and C9 -/

theorem napi_create_arraybuffer_trap (rt : NativeApi) (args results : List Val) (w : World)
    (r : Option Trap × List Val × World)
    (h : __napi_create_arraybuffer rt args results w = .ok r) : r.1 = none := by
  simp only [__napi_create_arraybuffer, bind, Except.bind, pure, Except.pure] at h
  repeat' split at h
  all_goals (cases h <;> rfl)

theorem napi_create_buffer_trap (rt : NativeApi) (args results : List Val) (w : World)
    (r : Option Trap × List Val × World)
    (h : __napi_create_buffer rt args results w = .ok r) : r.1 = none := by
  simp only [__napi_create_buffer, bind, Except.bind, pure, Except.pure] at h
  repeat' split at h
  all_goals (cases h <;> rfl)

theorem napi_create_buffer_copy_trap (rt : NativeApi) (args results : List Val) (w : World)
    (r : Option Trap × List Val × World)
    (h : __napi_create_buffer_copy rt args results w = .ok r) : r.1 = none := by
  simp only [__napi_create_buffer_copy, bind, Except.bind, pure, Except.pure] at h
  repeat' split at h
  all_goals (cases h <;> rfl)

theorem napi_get_arraybuffer_info_trap (rt : NativeApi) (args results : List Val) (w : World)
    (r : Option Trap × List Val × World)
    (h : __napi_get_arraybuffer_info rt args results w = .ok r) : r.1 = none := by
  simp only [__napi_get_arraybuffer_info, bind, Except.bind, pure, Except.pure] at h
  repeat' split at h
  all_goals (cases h <;> rfl)

theorem napi_get_buffer_info_trap (rt : NativeApi) (args results : List Val) (w : World)
    (r : Option Trap × List Val × World)
    (h : __napi_get_buffer_info rt args results w = .ok r) : r.1 = none := by
  simp only [__napi_get_buffer_info, bind, Except.bind, pure, Except.pure] at h
  repeat' split at h
  all_goals (cases h <;> rfl)

theorem call_trap (Result : Marker) (Args : List Marker) (fn : NativeFn)
    (args results : List Val) (w : World) (r : Option Trap × List Val × World)
    (h : napiCall.call Result Args fn args results w = .ok r) : r.1 = none := by
  simp only [napiCall.call, is_void_v_cls, bind, Except.bind, pure, Except.pure] at h
  repeat' split at h
  all_goals (cases h <;> rfl)

/-- C8: each of the five hand-written buffer bindings, called with inputs of the declared
type, returns with a status code in output slot 0 and the other slots as they were.  For
the two info bindings the code is the status returned by the runtime's info function.  For
the three creation bindings it is the status returned by the runtime's registration
function whenever malloc returned a block (and napi_generic_failure otherwise); being the
same number, it is 0 exactly when that native call reported success. -/
theorem C8_status_passed_through (rt : NativeApi) (a0 a1 a2 a3 a4 : Int) (rest : List Val)
    (r0 : Val) (rs : List Val) (w : World) :
    (∃ w1, __napi_get_arraybuffer_info rt (.i32 a0 :: .i32 a1 :: .i32 a2 :: .i32 a3 :: rest)
        (r0 :: rs) w
      = .ok (none, .i32 (rt.napi_get_arraybuffer_info (toPtr a0) (toPtr a1) (ptrAdd w.base a2)
          (ptrAdd w.base a3) w.bytes).1 :: rs, w1)) ∧
    (∃ w1, __napi_get_buffer_info rt (.i32 a0 :: .i32 a1 :: .i32 a2 :: .i32 a3 :: rest)
        (r0 :: rs) w
      = .ok (none, .i32 (rt.napi_get_buffer_info (toPtr a0) (toPtr a1) (ptrAdd w.base a2)
          (ptrAdd w.base a3) w.bytes).1 :: rs, w1)) ∧
    (∃ w1, __napi_create_arraybuffer rt (.i32 a0 :: .i32 a1 :: .i32 a2 :: .i32 a3 :: rest)
        (r0 :: rs) w
      = .ok (none, .i32 (if rt.malloc (toSizeT a1) % WORD = 0 then rt.napi_generic_failure
          else (rt.napi_create_external_arraybuffer (toPtr a0) (rt.malloc (toSizeT a1) % WORD)
            (toSizeT a1) .finalizeBuffer 0 (ptrAdd w.base a3) w.bytes).1) :: rs, w1)) ∧
    (∃ w1, __napi_create_buffer rt (.i32 a0 :: .i32 a1 :: .i32 a2 :: .i32 a3 :: rest)
        (r0 :: rs) w
      = .ok (none, .i32 (if rt.malloc (toSizeT a1) % WORD = 0 then rt.napi_generic_failure
          else (rt.napi_create_external_buffer (toPtr a0) (toSizeT a1)
            (rt.malloc (toSizeT a1) % WORD) .finalizeBuffer 0 (ptrAdd w.base a3)
            w.bytes).1) :: rs, w1)) ∧
    (∃ w1, __napi_create_buffer_copy rt
        (.i32 a0 :: .i32 a1 :: .i32 a2 :: .i32 a3 :: .i32 a4 :: rest) (r0 :: rs) w
      = .ok (none, .i32 (if rt.malloc (toSizeT a1) % WORD = 0 then rt.napi_generic_failure
          else (rt.napi_create_external_buffer (toPtr a0) (toSizeT a1)
            (rt.malloc (toSizeT a1) % WORD) .finalizeBuffer 0 (ptrAdd w.base a4)
            w.bytes).1) :: rs, w1)) := by
  refine ⟨⟨_, get_arraybuffer_info_eq rt a0 a1 a2 a3 rest r0 rs w _ _ rfl⟩,
    ⟨_, get_buffer_info_eq rt a0 a1 a2 a3 rest r0 rs w _ _ rfl⟩, ?_, ?_, ?_⟩
  · by_cases h : rt.malloc (toSizeT a1) % WORD = 0
    · rw [if_pos h]
      exact ⟨_, create_arraybuffer_fail rt a0 a1 a2 a3 rest r0 rs w h⟩
    · rw [if_neg h]
      exact ⟨_, create_arraybuffer_reg rt a0 a1 a2 a3 rest r0 rs w _ _ _ rfl h rfl⟩
  · by_cases h : rt.malloc (toSizeT a1) % WORD = 0
    · rw [if_pos h]
      exact ⟨_, create_buffer_fail rt a0 a1 a2 a3 rest r0 rs w h⟩
    · rw [if_neg h]
      exact ⟨_, create_buffer_reg rt a0 a1 a2 a3 rest r0 rs w _ _ _ rfl h rfl⟩
  · by_cases h : rt.malloc (toSizeT a1) % WORD = 0
    · rw [if_pos h]
      exact ⟨_, create_buffer_copy_fail rt a0 a1 a2 a3 a4 rest r0 rs w h⟩
    · rw [if_neg h]
      exact ⟨_, create_buffer_copy_reg rt a0 a1 a2 a3 a4 rest r0 rs w _ _ _ rfl h rfl⟩

theorem trap_cases {ε : Type} (x : Except ε (Option Trap × List Val × World))
    (h : ∀ r, x = .ok r → r.1 = none) :
    (∃ e, x = .error e) ∨ (∃ rs w1, x = .ok (none, rs, w1)) := by
  cases x with
  | error e => exact Or.inl ⟨e, rfl⟩
  | ok r =>
    obtain ⟨t, rs, w1⟩ := r
    have ht : t = none := h (t, rs, w1) rfl
    subst ht
    exact Or.inr ⟨rs, w1, rfl⟩

/-- C9, the code.  The binding of napi_get_version (returns a status; an environment and a
guest address as arguments) is called with the inputs [1, 16] and the output array [99]:
the native function is called with the environment 1 and the pointer base + 16, and then
control flows off the end of napiApply::apply, whose branch for a non-void return type has
no return statement, so the trampoline does not return the null trap: it does not return.
The rest of the claim holds: every call of a generic trampoline or of one of the five
hand-written bindings either does not return or returns the null trap, and the five
hand-written bindings do return on inputs of the declared type. -/
theorem C9_nonvoid_trampoline_does_not_return :
    napiCall.call (.Native .enumeration) [.Native .pointer, .Wasm .pointer] demoStatusFn
        [.i32 1, .i32 16] [.i32 99] demoWorld
      = .error (.noReturn
          { base := demoWorld.base, size := demoWorld.size, bytes := demoWorld.bytes,
            log := [.native [.ptr 1, .ptr 21474836496]] }) ∧
    (∀ (Result : Marker) (Args : List Marker) (fn : NativeFn) (args results : List Val)
        (w : World),
      (∃ e, napiCall.call Result Args fn args results w = .error e) ∨
      (∃ rs w1, napiCall.call Result Args fn args results w = .ok (none, rs, w1))) ∧
    (∀ (rt : NativeApi) (args results : List Val) (w : World),
      ((∃ e, __napi_create_arraybuffer rt args results w = .error e) ∨
        (∃ rs w1, __napi_create_arraybuffer rt args results w = .ok (none, rs, w1))) ∧
      ((∃ e, __napi_create_buffer rt args results w = .error e) ∨
        (∃ rs w1, __napi_create_buffer rt args results w = .ok (none, rs, w1))) ∧
      ((∃ e, __napi_create_buffer_copy rt args results w = .error e) ∨
        (∃ rs w1, __napi_create_buffer_copy rt args results w = .ok (none, rs, w1))) ∧
      ((∃ e, __napi_get_arraybuffer_info rt args results w = .error e) ∨
        (∃ rs w1, __napi_get_arraybuffer_info rt args results w = .ok (none, rs, w1))) ∧
      ((∃ e, __napi_get_buffer_info rt args results w = .error e) ∨
        (∃ rs w1, __napi_get_buffer_info rt args results w = .ok (none, rs, w1)))) ∧
    (∀ (rt : NativeApi) (a0 a1 a2 a3 a4 : Int) (rest : List Val) (r0 : Val) (rs : List Val)
        (w : World),
      (∃ st w1, __napi_create_arraybuffer rt
        (.i32 a0 :: .i32 a1 :: .i32 a2 :: .i32 a3 :: rest) (r0 :: rs) w
          = .ok (none, .i32 st :: rs, w1)) ∧
      (∃ st w1, __napi_create_buffer rt
        (.i32 a0 :: .i32 a1 :: .i32 a2 :: .i32 a3 :: rest) (r0 :: rs) w
          = .ok (none, .i32 st :: rs, w1)) ∧
      (∃ st w1, __napi_create_buffer_copy rt
        (.i32 a0 :: .i32 a1 :: .i32 a2 :: .i32 a3 :: .i32 a4 :: rest) (r0 :: rs) w
          = .ok (none, .i32 st :: rs, w1)) ∧
      (∃ st w1, __napi_get_arraybuffer_info rt
        (.i32 a0 :: .i32 a1 :: .i32 a2 :: .i32 a3 :: rest) (r0 :: rs) w
          = .ok (none, .i32 st :: rs, w1)) ∧
      (∃ st w1, __napi_get_buffer_info rt
        (.i32 a0 :: .i32 a1 :: .i32 a2 :: .i32 a3 :: rest) (r0 :: rs) w
          = .ok (none, .i32 st :: rs, w1))) := by
  refine ⟨rfl, ?_, ?_, ?_⟩
  · intro Result Args fn args results w
    exact trap_cases _ (call_trap Result Args fn args results w)
  · intro rt args results w
    exact ⟨trap_cases _ (napi_create_arraybuffer_trap rt args results w),
      trap_cases _ (napi_create_buffer_trap rt args results w),
      trap_cases _ (napi_create_buffer_copy_trap rt args results w),
      trap_cases _ (napi_get_arraybuffer_info_trap rt args results w),
      trap_cases _ (napi_get_buffer_info_trap rt args results w)⟩
  · intro rt a0 a1 a2 a3 a4 rest r0 rs w
    refine ⟨?_, ?_, ?_, ⟨_, _, get_arraybuffer_info_eq rt a0 a1 a2 a3 rest r0 rs w _ _ rfl⟩,
      ⟨_, _, get_buffer_info_eq rt a0 a1 a2 a3 rest r0 rs w _ _ rfl⟩⟩
    · by_cases h : rt.malloc (toSizeT a1) % WORD = 0
      · exact ⟨_, _, create_arraybuffer_fail rt a0 a1 a2 a3 rest r0 rs w h⟩
      · exact ⟨_, _, create_arraybuffer_reg rt a0 a1 a2 a3 rest r0 rs w _ _ _ rfl h rfl⟩
    · by_cases h : rt.malloc (toSizeT a1) % WORD = 0
      · exact ⟨_, _, create_buffer_fail rt a0 a1 a2 a3 rest r0 rs w h⟩
      · exact ⟨_, _, create_buffer_reg rt a0 a1 a2 a3 rest r0 rs w _ _ _ rfl h rfl⟩
    · by_cases h : rt.malloc (toSizeT a1) % WORD = 0
      · exact ⟨_, _, create_buffer_copy_fail rt a0 a1 a2 a3 a4 rest r0 rs w h⟩
      · exact ⟨_, _, create_buffer_copy_reg rt a0 a1 a2 a3 a4 rest r0 rs w _ _ _ rfl h rfl⟩

/-! ## The info bindings: claim C6 -/

theorem load64_lt (m : Mem) (a : Nat) : load64 m a < WORD := by
  simp only [load64, WORD]
  omega

/-- C6 as stated fails when the two output locations overlap.  With the guest data output
at offset 200 and the length output at offset 204 (adjacent 4-byte guest slots, while the
host stores 8 bytes at each), the runtime reports success, the pointer 0x1000001000 at the
data address and the length 16 at the length address; the binding then stores the offset
0xB00001000 over the 8 bytes at offset 200, and the length address reads 11 instead of
16. -/
theorem C6_info_overlap_counterexample :
    (demoApi.napi_get_buffer_info (toPtr 1) (toPtr 2) (ptrAdd demoWorld.base 200)
      (ptrAdd demoWorld.base 204) demoWorld.bytes).1 = napi_ok ∧
    load64 (demoApi.napi_get_buffer_info (toPtr 1) (toPtr 2) (ptrAdd demoWorld.base 200)
      (ptrAdd demoWorld.base 204) demoWorld.bytes).2 (ptrAdd demoWorld.base 200)
        = 68719480832 ∧
    load64 (demoApi.napi_get_buffer_info (toPtr 1) (toPtr 2) (ptrAdd demoWorld.base 200)
      (ptrAdd demoWorld.base 204) demoWorld.bytes).2 (ptrAdd demoWorld.base 204) = 16 ∧
    Option.map (fun w => load64 w.bytes (ptrAdd demoWorld.base 200))
      (worldOf (__napi_get_buffer_info demoApi [.i32 1, .i32 2, .i32 200, .i32 204]
        [.i32 99] demoWorld)) = some 47244644352 ∧
    Option.map (fun w => load64 w.bytes (ptrAdd demoWorld.base 204))
      (worldOf (__napi_get_buffer_info demoApi [.i32 1, .i32 2, .i32 200, .i32 204]
        [.i32 99] demoWorld)) = some 11 ∧
    Option.map (fun w => load64 w.bytes (ptrAdd demoWorld.base 204))
      (worldOf (__napi_get_buffer_info demoApi [.i32 1, .i32 2, .i32 200, .i32 204]
        [.i32 99] demoWorld)) ≠ some 16 := by
  refine ⟨rfl, ?_, ?_, ?_, ?_, ?_⟩ <;> decide

theorem info_after_store (m1 : Mem) (b data len p n : Nat)
    (hp : load64 m1 data = p) (hn : load64 m1 len = n)
    (hd : data + 8 ≤ len ∨ len + 8 ≤ data) :
    load64 (store64 m1 data (ptrSub (load64 m1 data) (ptrAdd b 0))) data = ptrSub p b ∧
    ptrAdd b (load64 (store64 m1 data (ptrSub (load64 m1 data) (ptrAdd b 0))) data) = p ∧
    (b ≤ p → load64 (store64 m1 data (ptrSub (load64 m1 data) (ptrAdd b 0))) data = p - b) ∧
    load64 (store64 m1 data (ptrSub (load64 m1 data) (ptrAdd b 0))) len = n := by
  have hlt : p < WORD := hp ▸ load64_lt m1 data
  have e : ptrSub p (ptrAdd b 0) = ptrSub p b := by
    unfold ptrSub ptrAdd
    omega
  have hs : ptrSub p b < WORD := by
    unfold ptrSub WORD
    omega
  rw [load64_store64_same, load64_store64_disjoint _ _ _ _ hd, hp, e, Nat.mod_eq_of_lt hs]
  refine ⟨rfl, ?_, ?_, hn⟩
  · unfold ptrSub ptrAdd
    unfold WORD at hlt
    omega
  · intro hb
    unfold ptrSub
    unfold WORD at hlt
    omega

/-- C6 as it holds: for Get-ArrayBuffer-Info and Get-Buffer-Info, called with inputs of the
declared type, whenever the runtime reports success and leaves the backing pointer p at the
data output address and the length n at the length output address, and the 8 bytes of the
two output locations do not overlap, the binding leaves at the data output address the
offset p - base (pointer difference on 64-bit addresses: base + offset is p again, and the
offset is the plain difference when p is not below base) and leaves the length n at the
length output address. -/
theorem C6_info_offset_and_length (rt : NativeApi) (a0 a1 a2 a3 : Int) (rest : List Val)
    (r0 : Val) (rs : List Val) (w : World) (mA mB : Mem) (p n : Nat)
    (hA : rt.napi_get_arraybuffer_info (toPtr a0) (toPtr a1) (ptrAdd w.base a2)
      (ptrAdd w.base a3) w.bytes = (napi_ok, mA))
    (hB : rt.napi_get_buffer_info (toPtr a0) (toPtr a1) (ptrAdd w.base a2)
      (ptrAdd w.base a3) w.bytes = (napi_ok, mB))
    (hpA : load64 mA (ptrAdd w.base a2) = p) (hnA : load64 mA (ptrAdd w.base a3) = n)
    (hpB : load64 mB (ptrAdd w.base a2) = p) (hnB : load64 mB (ptrAdd w.base a3) = n)
    (hd : ptrAdd w.base a2 + 8 ≤ ptrAdd w.base a3 ∨ ptrAdd w.base a3 + 8 ≤ ptrAdd w.base a2) :
    (∃ w1, __napi_get_arraybuffer_info rt (.i32 a0 :: .i32 a1 :: .i32 a2 :: .i32 a3 :: rest)
        (r0 :: rs) w = .ok (none, .i32 napi_ok :: rs, w1) ∧
      load64 w1.bytes (ptrAdd w.base a2) = ptrSub p w.base ∧
      ptrAdd w.base (load64 w1.bytes (ptrAdd w.base a2)) = p ∧
      (w.base ≤ p → load64 w1.bytes (ptrAdd w.base a2) = p - w.base) ∧
      load64 w1.bytes (ptrAdd w.base a3) = n) ∧
    (∃ w1, __napi_get_buffer_info rt (.i32 a0 :: .i32 a1 :: .i32 a2 :: .i32 a3 :: rest)
        (r0 :: rs) w = .ok (none, .i32 napi_ok :: rs, w1) ∧
      load64 w1.bytes (ptrAdd w.base a2) = ptrSub p w.base ∧
      ptrAdd w.base (load64 w1.bytes (ptrAdd w.base a2)) = p ∧
      (w.base ≤ p → load64 w1.bytes (ptrAdd w.base a2) = p - w.base) ∧
      load64 w1.bytes (ptrAdd w.base a3) = n) := by
  constructor
  · refine ⟨_, get_arraybuffer_info_eq rt a0 a1 a2 a3 rest r0 rs w _ _ hA, ?_⟩
    rw [if_pos rfl]
    exact info_after_store mA w.base _ _ p n hpA hnA hd
  · refine ⟨_, get_buffer_info_eq rt a0 a1 a2 a3 rest r0 rs w _ _ hB, ?_⟩
    rw [if_pos rfl]
    exact info_after_store mB w.base _ _ p n hpB hnB hd

/-- C6 with the data output at offset 200 and the length output at offset 208: the sample
runtime reports the pointer 0x1000001000 and the length 16; the data output then holds the
offset 0xB00001000 and the length output holds 16. -/
theorem C6_info_offset_and_length_witness :
    (ptrAdd demoWorld.base 200 + 8 ≤ ptrAdd demoWorld.base 208 ∨
      ptrAdd demoWorld.base 208 + 8 ≤ ptrAdd demoWorld.base 200) ∧
    (∃ w1, __napi_get_buffer_info demoApi [.i32 1, .i32 2, .i32 200, .i32 208] [.i32 99]
        demoWorld = .ok (none, [.i32 napi_ok], w1) ∧
      load64 w1.bytes (ptrAdd demoWorld.base 200) = ptrSub 68719480832 demoWorld.base ∧
      ptrAdd demoWorld.base (load64 w1.bytes (ptrAdd demoWorld.base 200)) = 68719480832 ∧
      (demoWorld.base ≤ 68719480832 →
        load64 w1.bytes (ptrAdd demoWorld.base 200) = 68719480832 - demoWorld.base) ∧
      load64 w1.bytes (ptrAdd demoWorld.base 208) = 16) :=
  ⟨by decide,
    (C6_info_offset_and_length demoApi 1 2 200 208 [] (.i32 99) [] demoWorld
      (store64 (store64 demoWorld.bytes (ptrAdd demoWorld.base 200) 68719480832)
        (ptrAdd demoWorld.base 208) 16)
      (store64 (store64 demoWorld.bytes (ptrAdd demoWorld.base 200) 68719480832)
        (ptrAdd demoWorld.base 208) 16)
      68719480832 16 rfl rfl (by decide) (by decide) (by decide) (by decide)
      (by decide)).2⟩

/-! ## Exposure of the block and the copy: claims C7 and C5 -/

/-- C7: in each of the three buffer-creation bindings, once malloc has returned a block, the
binding calls the runtime's registration function with the release callback finalizeBuffer
and a null hint.  If that call returns the ok status, the binding stores the address of the
block at the pointer output address, on top of the memory the registration left and as the
last effect (for Create-Buffer-Copy after the copy into the block); if it returns any other
status, the binding leaves the memory exactly as the registration left it: no store, and
for Create-Buffer-Copy no copy. -/
theorem C7_pointer_stored_only_after_registration (rt : NativeApi) (a0 a1 a2 a3 a4 : Int)
    (rest : List Val) (r0 : Val) (rs : List Val) (w : World) (buffer : Nat)
    (stA stB stC : Int) (mA mB mC : Mem)
    (hb : rt.malloc (toSizeT a1) % WORD = buffer) (hnz : buffer ≠ 0)
    (hA : rt.napi_create_external_arraybuffer (toPtr a0) buffer (toSizeT a1) .finalizeBuffer 0
      (ptrAdd w.base a3) w.bytes = (stA, mA))
    (hB : rt.napi_create_external_buffer (toPtr a0) (toSizeT a1) buffer .finalizeBuffer 0
      (ptrAdd w.base a3) w.bytes = (stB, mB))
    (hC : rt.napi_create_external_buffer (toPtr a0) (toSizeT a1) buffer .finalizeBuffer 0
      (ptrAdd w.base a4) w.bytes = (stC, mC)) :
    __napi_create_arraybuffer rt (.i32 a0 :: .i32 a1 :: .i32 a2 :: .i32 a3 :: rest)
        (r0 :: rs) w
      = .ok (none, .i32 stA :: rs,
          if stA = napi_ok then
            { base := w.base, size := w.size,
              bytes := store64 mA (ptrAdd w.base a2) buffer,
              log := w.log ++ [.malloc (toSizeT a1) buffer,
                .napi_create_external_arraybuffer (toPtr a0) buffer (toSizeT a1)
                  .finalizeBuffer 0 (ptrAdd w.base a3) stA,
                .store (ptrAdd w.base a2) buffer] }
          else
            { base := w.base, size := w.size, bytes := mA,
              log := w.log ++ [.malloc (toSizeT a1) buffer,
                .napi_create_external_arraybuffer (toPtr a0) buffer (toSizeT a1)
                  .finalizeBuffer 0 (ptrAdd w.base a3) stA] }) ∧
    __napi_create_buffer rt (.i32 a0 :: .i32 a1 :: .i32 a2 :: .i32 a3 :: rest) (r0 :: rs) w
      = .ok (none, .i32 stB :: rs,
          if stB = napi_ok then
            { base := w.base, size := w.size,
              bytes := store64 mB (ptrAdd w.base a2) buffer,
              log := w.log ++ [.malloc (toSizeT a1) buffer,
                .napi_create_external_buffer (toPtr a0) (toSizeT a1) buffer
                  .finalizeBuffer 0 (ptrAdd w.base a3) stB,
                .store (ptrAdd w.base a2) buffer] }
          else
            { base := w.base, size := w.size, bytes := mB,
              log := w.log ++ [.malloc (toSizeT a1) buffer,
                .napi_create_external_buffer (toPtr a0) (toSizeT a1) buffer
                  .finalizeBuffer 0 (ptrAdd w.base a3) stB] }) ∧
    __napi_create_buffer_copy rt
        (.i32 a0 :: .i32 a1 :: .i32 a2 :: .i32 a3 :: .i32 a4 :: rest) (r0 :: rs) w
      = .ok (none, .i32 stC :: rs,
          if stC = napi_ok then
            { base := w.base, size := w.size,
              bytes := store64 (memcpy mC buffer (ptrAdd w.base a2) (toSizeT a1))
                (ptrAdd w.base a3) buffer,
              log := w.log ++ [.malloc (toSizeT a1) buffer,
                .napi_create_external_buffer (toPtr a0) (toSizeT a1) buffer
                  .finalizeBuffer 0 (ptrAdd w.base a4) stC,
                .memcpy buffer (ptrAdd w.base a2) (toSizeT a1),
                .store (ptrAdd w.base a3) buffer] }
          else
            { base := w.base, size := w.size, bytes := mC,
              log := w.log ++ [.malloc (toSizeT a1) buffer,
                .napi_create_external_buffer (toPtr a0) (toSizeT a1) buffer
                  .finalizeBuffer 0 (ptrAdd w.base a4) stC] }) :=
  ⟨create_arraybuffer_reg rt a0 a1 a2 a3 rest r0 rs w buffer stA mA hb hnz hA,
    create_buffer_reg rt a0 a1 a2 a3 rest r0 rs w buffer stB mB hb hnz hB,
    create_buffer_copy_reg rt a0 a1 a2 a3 a4 rest r0 rs w buffer stC mC hb hnz hC⟩

/-- C7 with a null environment, for which the sample registration reports status 1: the
block at 68719480832 is allocated and registered with finalizeBuffer, slot 0 receives 1, the bytes
of host memory are as before and neither a store nor a copy is recorded. -/
theorem C7_pointer_stored_only_after_registration_witness :
    demoApi.malloc (toSizeT 16) % WORD = 68719480832 ∧
    __napi_create_buffer_copy demoApi [.i32 0, .i32 16, .i32 100, .i32 204, .i32 200]
        [.i32 99] demoWorld
      = .ok (none, [.i32 1],
          { base := demoWorld.base, size := demoWorld.size, bytes := demoWorld.bytes,
            log := [.malloc 16 68719480832,
              .napi_create_external_buffer 0 16 68719480832 .finalizeBuffer 0 21474836680
                1] }) :=
  ⟨by decide,
    (C7_pointer_stored_only_after_registration demoApi 0 16 100 204 200 [] (.i32 99) []
      demoWorld 68719480832 1 1 1 demoWorld.bytes demoWorld.bytes demoWorld.bytes
      (by decide)
      (by decide) rfl rfl rfl).2.2⟩

theorem copy_bytes (m1 : Mem) (buffer src rd n i : Nat) (hi : i < n)
    (hsrcPtr : rd + 8 ≤ src ∨ src + n ≤ rd)
    (hblkSrc : buffer + n ≤ src ∨ src + n ≤ buffer)
    (hblkPtr : buffer + n ≤ rd ∨ rd + 8 ≤ buffer) :
    store64 (memcpy m1 buffer src n) rd buffer (buffer + i) = m1 (src + i) ∧
    store64 (memcpy m1 buffer src n) rd buffer (src + i) = m1 (src + i) := by
  have h1 : ¬ (rd ≤ buffer + i ∧ buffer + i < rd + 8) := by omega
  have h2 : ¬ (rd ≤ src + i ∧ src + i < rd + 8) := by omega
  have h3 : buffer ≤ buffer + i ∧ buffer + i < buffer + n := by omega
  have h4 : ¬ (buffer ≤ src + i ∧ src + i < buffer + n) := by omega
  simp only [store64, memcpy, h1, h2, h3, h4, if_false, if_true, and_self]
  simp

/-- C5: for every call of Create-Buffer-Copy, with inputs of the declared type, in which
malloc returns a block (a fresh one: it overlaps neither the source range nor the pointer
output location), the registration returns the ok status and neither output location
overlaps the source range: after the call the value at the result-pointer output address is
the address of the block, and the block holds, byte for byte, the n bytes of the source
range LinearMemory[s .. s+n) as they are after the call, which are the bytes the
registration left there, and the bytes that were there before the call when the
registration changed nothing outside its handle output location. -/
theorem C5_copy_is_exact (rt : NativeApi) (a0 a1 a2 a3 a4 : Int) (rest : List Val)
    (r0 : Val) (rs : List Val) (w : World) (buffer : Nat) (m1 : Mem)
    (hb : rt.malloc (toSizeT a1) % WORD = buffer) (hnz : buffer ≠ 0)
    (hr : rt.napi_create_external_buffer (toPtr a0) (toSizeT a1) buffer .finalizeBuffer 0
      (ptrAdd w.base a4) w.bytes = (napi_ok, m1))
    (hsrcPtr : ptrAdd w.base a3 + 8 ≤ ptrAdd w.base a2 ∨
      ptrAdd w.base a2 + toSizeT a1 ≤ ptrAdd w.base a3)
    (hsrcHandle : ptrAdd w.base a4 + 8 ≤ ptrAdd w.base a2 ∨
      ptrAdd w.base a2 + toSizeT a1 ≤ ptrAdd w.base a4)
    (hblkSrc : buffer + toSizeT a1 ≤ ptrAdd w.base a2 ∨
      ptrAdd w.base a2 + toSizeT a1 ≤ buffer)
    (hblkPtr : buffer + toSizeT a1 ≤ ptrAdd w.base a3 ∨ ptrAdd w.base a3 + 8 ≤ buffer) :
    ∃ w1, __napi_create_buffer_copy rt
        (.i32 a0 :: .i32 a1 :: .i32 a2 :: .i32 a3 :: .i32 a4 :: rest) (r0 :: rs) w
        = .ok (none, .i32 napi_ok :: rs, w1) ∧
      load64 w1.bytes (ptrAdd w.base a3) = buffer ∧
      (∀ i, i < toSizeT a1 →
        w1.bytes (load64 w1.bytes (ptrAdd w.base a3) + i) = w1.bytes (ptrAdd w.base a2 + i)) ∧
      (∀ i, i < toSizeT a1 → w1.bytes (buffer + i) = m1 (ptrAdd w.base a2 + i)) ∧
      ((∀ x, ¬ (ptrAdd w.base a4 ≤ x ∧ x < ptrAdd w.base a4 + 8) → m1 x = w.bytes x) →
        ∀ i, i < toSizeT a1 → w1.bytes (buffer + i) = w.bytes (ptrAdd w.base a2 + i)) := by
  refine ⟨_, create_buffer_copy_reg rt a0 a1 a2 a3 a4 rest r0 rs w buffer napi_ok m1 hb hnz hr,
    ?_⟩
  rw [if_pos rfl]
  have hlt : buffer < WORD := hb ▸ Nat.mod_lt _ (by decide)
  have hload : load64 (store64 (memcpy m1 buffer (ptrAdd w.base a2) (toSizeT a1))
      (ptrAdd w.base a3) buffer) (ptrAdd w.base a3) = buffer := by
    rw [load64_store64_same, Nat.mod_eq_of_lt hlt]
  refine ⟨hload, ?_, ?_, ?_⟩
  · intro i hi
    simp only [hload]
    have h := copy_bytes m1 buffer _ _ _ i hi hsrcPtr hblkSrc hblkPtr
    rw [h.1, h.2]
  · intro i hi
    exact (copy_bytes m1 buffer _ _ _ i hi hsrcPtr hblkSrc hblkPtr).1
  · intro hframe i hi
    have h := copy_bytes m1 buffer _ _ _ i hi hsrcPtr hblkSrc hblkPtr
    show store64 _ _ _ _ = _
    rw [h.1]
    exact hframe _ (by omega)

/-- C5 at Scenario A: length 16, source offset 100, result-handle output offset 200,
result-pointer output offset 204.  The value at offset 204 is the address 68719480832 of
the block, and the 16 bytes of the block are the bytes of LinearMemory[100 .. 116) before the
call. -/
theorem C5_copy_is_exact_witness :
    demoApi.malloc (toSizeT 16) % WORD = 68719480832 ∧
    (ptrAdd demoWorld.base 204 + 8 ≤ ptrAdd demoWorld.base 100 ∨
      ptrAdd demoWorld.base 100 + toSizeT 16 ≤ ptrAdd demoWorld.base 204) ∧
    (ptrAdd demoWorld.base 200 + 8 ≤ ptrAdd demoWorld.base 100 ∨
      ptrAdd demoWorld.base 100 + toSizeT 16 ≤ ptrAdd demoWorld.base 200) ∧
    ∃ w1, __napi_create_buffer_copy demoApi
        [.i32 1, .i32 16, .i32 100, .i32 204, .i32 200] [.i32 99] demoWorld
        = .ok (none, [.i32 napi_ok], w1) ∧
      load64 w1.bytes (ptrAdd demoWorld.base 204) = 68719480832 ∧
      ∀ i, i < toSizeT 16 →
        w1.bytes (68719480832 + i) = demoWorld.bytes (ptrAdd demoWorld.base 100 + i) := by
  refine ⟨by decide, by decide, by decide, ?_⟩
  obtain ⟨w1, h1, h2, _, _, h5⟩ := C5_copy_is_exact demoApi 1 16 100 204 200 [] (.i32 99) []
    demoWorld 68719480832 (store64 demoWorld.bytes (ptrAdd demoWorld.base 200) 21845)
    (by decide) (by decide) rfl (by decide) (by decide) (by decide) (by decide)
  exact ⟨w1, h1, h2, h5 (fun x hx => by simp [store64, hx])⟩

/-! ## Registered function types: claim C11 -/

/-- C11: the function type that exportNative registers for the native return type R and
the native parameter types A1..An has exactly n parameters, of kinds wasmType(A1), ...,
wasmType(An) in that order; it has no result when R is void and the single result
wasmType(R) otherwise; wasmType(float) is Float32, wasmType(double) is Float64 and
wasmType(T) is Int32 for every other T.  A generic binding napiBind<Result, Args...> is
registered with exportNative at the types kind<Result> and kind<Args>... -/
theorem C11_exportNative_function_type (R : CType) (As : List CType) (cb : Trampoline)
    (Result : Marker) (Args : List Marker) (Fn : NapiFn) :
    (exportNative R As cb).type.params = As.map wasmType ∧
    (exportNative R As cb).type.params.length = As.length ∧
    (∀ i : Nat, (exportNative R As cb).type.params[i]? = (As[i]?).map wasmType) ∧
    (exportNative R As cb).type.results = (if R = .void then [] else [wasmType R]) ∧
    (exportNative R As cb).cb = cb ∧
    wasmType .float = .F32 ∧ wasmType .double = .F64 ∧
    (∀ T : CType, T ≠ .float → T ≠ .double → wasmType T = .I32) ∧
    napiBind.bind Result Args Fn
      = exportNative (kind Result) (Args.map kind) (.call Result Args Fn) ∧
    (napiBind.bind Result Args Fn).type.params = paramKinds Args := by
  have hp : (exportNative R As cb).type.params = As.map wasmType := by
    unfold exportNative
    split <;> rfl
  refine ⟨hp, ?_, ?_, ?_, ?_, rfl, rfl, ?_, rfl, ?_⟩
  · rw [hp, List.length_map]
  · intro i
    rw [hp, List.getElem?_map]
  · cases R <;> rfl
  · unfold exportNative
    split <;> rfl
  · intro T h1 h2
    cases T <;> first | rfl | exact absurd rfl h1 | exact absurd rfl h2
  · have h : (napiBind.bind Result Args Fn).type.params = (Args.map kind).map wasmType := by
      unfold napiBind.bind exportNative
      split <;> rfl
    rw [h, List.map_map]
    rfl

/-- C11 at the signatures of napi_create_double (status, environment, double, guest
address) and of napi_fatal_error (void, two guest strings with their lengths). -/
theorem C11_exportNative_function_type_witness :
    (exportNative .enumeration [.pointer, .double, .pointer]
      (.call (.Native .enumeration) [.Native .pointer, .Native .double, .Wasm .pointer]
        .napi_create_double)).type = { params := [.I32, .F64, .I32], results := [.I32] } ∧
    (napiBind.bind (.Native .void)
      [.Wasm .pointer, .Native .size_t, .Wasm .pointer, .Native .size_t]
      .napi_fatal_error).type.params = [.I32, .I32, .I32, .I32] ∧
    wasmType .size_t = .I32 := by
  have h := C11_exportNative_function_type .enumeration [.pointer, .double, .pointer]
    (.call (.Native .enumeration) [.Native .pointer, .Native .double, .Wasm .pointer]
      .napi_create_double) (.Native .void)
    [.Wasm .pointer, .Native .size_t, .Wasm .pointer, .Native .size_t] .napi_fatal_error
  refine ⟨?_, h.2.2.2.2.2.2.2.2.2, h.2.2.2.2.2.2.2.1 .size_t (by decide) (by decide)⟩
  have h1 := h.1
  have h2 := h.2.2.2.1
  exact congrArg₂ FuncType.mk h1 h2

/-! ## Signedness of the offset: claim C12 -/

/-- C12 as it holds: for every 32-bit wire value v supplied for a parameter marked Wasm<T>,
the offset used for the translation is v read as a signed 32-bit integer: the unwrapped
pointer is base + v in 64-bit pointer arithmetic.  When the top bit of v is clear this is
base + (v mod 2^32); when the top bit is set it is base + (v mod 2^32) - 2^32, an address
below base. -/
theorem C12_offset_is_signed (T : CType) (v : Int) (w : World)
    (hlo : -2 ^ 31 ≤ v) (hhi : v < 2 ^ 31) (hb : w.base + 2 ^ 31 ≤ 2 ^ 64) :
    napiUnwrap (.Wasm T) (.i32 v) w = .ok (.ptr (ptrAdd w.base v)) ∧
    (0 ≤ v → ((ptrAdd w.base v : Nat) : Int) = (w.base : Int) + v % 2 ^ 32) ∧
    (v < 0 → 2 ^ 31 ≤ w.base →
      ((ptrAdd w.base v : Nat) : Int) = (w.base : Int) + v % 2 ^ 32 - 2 ^ 32 ∧
      ptrAdd w.base v < w.base) := by
  refine ⟨rfl, ?_, ?_⟩
  · intro h0
    unfold ptrAdd
    omega
  · intro h0 hbase
    unfold ptrAdd
    omega

/-- C12 as it holds, at the wire value -1 (all 32 bits set) in a world whose memory starts
at 21474836480: the unwrapped pointer is 21474836479, one byte below the memory. -/
theorem C12_offset_is_signed_witness :
    napiUnwrap (.Wasm .pointer) (.i32 (-1)) demoWorld = .ok (.ptr (ptrAdd demoWorld.base (-1))) ∧
    ((ptrAdd demoWorld.base (-1) : Nat) : Int)
      = (demoWorld.base : Int) + (-1) % 2 ^ 32 - 2 ^ 32 ∧
    ptrAdd demoWorld.base (-1) < demoWorld.base :=
  ⟨(C12_offset_is_signed .pointer (-1) demoWorld (by decide) (by decide) (by decide)).1,
    (C12_offset_is_signed .pointer (-1) demoWorld (by decide) (by decide) (by decide)).2.2
      (by decide) (by decide)⟩

/-- C12 as stated fails at the wire value -1, whose unsigned reading is 4294967295: in a
world whose memory starts at 21474836480 the unwrapped pointer is 21474836479, which is
below base and is not base + 4294967295 = 25769803775. -/
theorem C12_unsigned_offset_counterexample :
    (-1 : Int) % 2 ^ 32 = 4294967295 ∧
    napiUnwrap (.Wasm .pointer) (.i32 (-1)) demoWorld = .ok (.ptr 21474836479) ∧
    (21474836479 : Nat) ≠ demoWorld.base + 4294967295 ∧
    21474836479 < demoWorld.base := by
  refine ⟨by decide, rfl, by decide, by decide⟩

/-! ## Wrapping after unwrapping: claim C14 -/

theorem toInt32_of_mod (x n : Int) (hlo : -2 ^ 31 ≤ x) (hhi : x < 2 ^ 31)
    (h : n = x ∨ n = x % 2 ^ 32 ∨ n = x % 2 ^ 64) :
    toInt32 n = x ∧ n % 2 ^ 32 = x % 2 ^ 32 := by
  unfold toInt32
  omega

/-- C14: for every Int32 wire value x and every native integer type T among int32_t,
uint32_t, int64_t, uint64_t and size_t, napiCast<T>(Val::i32(x)) is a native integer n
whose low 32 bits are those of x, and napiWrap<Native<T>>(n) is the Int32 value x, of kind
wasmType(T). -/
theorem C14_wrap_inverts_cast (x : Int) (T : CType) (hlo : -2 ^ 31 ≤ x) (hhi : x < 2 ^ 31)
    (hT : T ∈ [CType.int32_t, CType.uint32_t, CType.int64_t, CType.uint64_t, CType.size_t]) :
    ∃ n : Int, napiCast T (.i32 x) = .ok (.int n) ∧
      n % 2 ^ 32 = x % 2 ^ 32 ∧
      napiWrap (.Native T) (.int n) = .i32 x ∧
      (napiWrap (.Native T) (.int n)).kind = wasmType T := by
  simp only [List.mem_cons, List.mem_singleton, List.not_mem_nil, or_false] at hT
  rcases hT with h | h | h | h | h <;> subst h
  · refine ⟨x, rfl, rfl, ?_, ?_⟩
    · show Val.i32 (toInt32 x) = Val.i32 x
      rw [(toInt32_of_mod x x hlo hhi (Or.inl rfl)).1]
    · rfl
  · refine ⟨x % 2 ^ 32, rfl, (toInt32_of_mod x _ hlo hhi (Or.inr (Or.inl rfl))).2, ?_, ?_⟩
    · show Val.i32 (toInt32 (x % 2 ^ 32)) = Val.i32 x
      rw [(toInt32_of_mod x _ hlo hhi (Or.inr (Or.inl rfl))).1]
    · rfl
  · refine ⟨x, rfl, rfl, ?_, ?_⟩
    · show Val.i32 (toInt32 x) = Val.i32 x
      rw [(toInt32_of_mod x x hlo hhi (Or.inl rfl)).1]
    · rfl
  · refine ⟨x % 2 ^ 64, rfl, (toInt32_of_mod x _ hlo hhi (Or.inr (Or.inr rfl))).2, ?_, ?_⟩
    · show Val.i32 (toInt32 (x % 2 ^ 64)) = Val.i32 x
      rw [(toInt32_of_mod x _ hlo hhi (Or.inr (Or.inr rfl))).1]
    · rfl
  · refine ⟨x % 2 ^ 64, rfl, (toInt32_of_mod x _ hlo hhi (Or.inr (Or.inr rfl))).2, ?_, ?_⟩
    · show Val.i32 (toInt32 (x % 2 ^ 64)) = Val.i32 x
      rw [(toInt32_of_mod x _ hlo hhi (Or.inr (Or.inr rfl))).1]
    · rfl

/-- C14 at the wire value -5 and the type uint64_t: the cast gives 2^64 - 5 and wrapping it
gives back the Int32 value -5. -/
theorem C14_wrap_inverts_cast_witness :
    napiCast .uint64_t (.i32 (-5)) = .ok (.int 18446744073709551611) ∧
    ∃ n : Int, napiCast .uint64_t (.i32 (-5)) = .ok (.int n) ∧
      n % 2 ^ 32 = (-5) % 2 ^ 32 ∧
      napiWrap (.Native .uint64_t) (.int n) = .i32 (-5) ∧
      (napiWrap (.Native .uint64_t) (.int n)).kind = wasmType .uint64_t :=
  ⟨rfl, C14_wrap_inverts_cast (-5) .uint64_t (by decide) (by decide) (by decide)⟩

/-! ## The import table: claim C13 -/

set_option maxRecDepth 100000

/-- C13 as stated fails: with both preprocessor conditions false the table has 124 host
functions, and napi_is_error is bound at position 5 (the sixth binding, among the exception
functions) and again at position 72 (between napi_is_buffer and napi_is_typedarray), so the
list of bound functions has a repetition. -/
theorem C13_napi_is_error_bound_twice_counterexample :
    (provideNapi.bound { experimental := false, exerimental := false }).length = 124 ∧
    (provideNapi.bound { experimental := false, exerimental := false })[5]?
      = some .napi_is_error ∧
    (provideNapi.bound { experimental := false, exerimental := false })[72]?
      = some .napi_is_error ∧
    ¬ (provideNapi.bound { experimental := false, exerimental := false }).Nodup := by
  refine ⟨by decide, by decide, by decide, by decide⟩

/-- C13 as it holds: whatever the two preprocessor conditions are, napi_is_error is bound at
exactly two positions of the import table, the first of them position 5, and once that
first binding is left out no native API function is bound at more than one position.  The
second binding of napi_is_error (position 72 when both conditions are false) stands
directly before napi_is_typedarray and directly after napi_is_buffer or, when it is
compiled in, napi_is_date. -/
theorem C13_only_napi_is_error_bound_twice (cfg : BuildConfig) :
    (provideNapi.bound cfg).count .napi_is_error = 2 ∧
    (provideNapi.bound cfg)[5]? = some .napi_is_error ∧
    ((provideNapi.bound cfg).eraseIdx 5).Nodup ∧
    (provideNapi.bound cfg)[72 + (if cfg.experimental then 8 else 0)
      + (if cfg.exerimental then 1 else 0)]? = some .napi_is_error ∧
    (provideNapi.bound cfg)[73 + (if cfg.experimental then 8 else 0)
      + (if cfg.exerimental then 1 else 0)]? = some .napi_is_typedarray ∧
    (provideNapi.bound cfg)[71 + (if cfg.experimental then 8 else 0)
      + (if cfg.exerimental then 1 else 0)]?
      = some (if cfg.experimental then .napi_is_date else .napi_is_buffer) := by
  obtain ⟨e1, e2⟩ := cfg
  cases e1 <;> cases e2 <;> decide

/-! ## Array accesses of the hand-written bindings: claim C15 -/

/-- C15: whatever the preprocessor conditions, the import table registers exactly five
hand-written bindings, each with one Int32 result and with Int32 parameters only: four for
__napi_create_arraybuffer, __napi_create_buffer, __napi_get_arraybuffer_info and
__napi_get_buffer_info, five for __napi_create_buffer_copy.  Called with k Int32 inputs
followed by any further inputs, and with an output array of one slot followed by any
further slots, each binding returns, its status and the world it leaves are the same
whatever the further inputs, the old value of slot 0 and the further slots are, and the
further output slots come back unchanged: it reads inputs 0..k-1 only and writes output 0
only. -/
theorem C15_buffer_bindings_stay_in_bounds (cfg : BuildConfig) (rt : NativeApi)
    (a0 a1 a2 a3 a4 : Int) (w : World) :
    (provideNapi.imports cfg).filter
        (fun h => match h.cb with
          | .buffer _ => true
          | .call _ _ _ => false)
      = [ { type := { params := [.I32, .I32, .I32, .I32], results := [.I32] },
            cb := .buffer .__napi_create_arraybuffer },
          { type := { params := [.I32, .I32, .I32, .I32], results := [.I32] },
            cb := .buffer .__napi_create_buffer },
          { type := { params := [.I32, .I32, .I32, .I32, .I32], results := [.I32] },
            cb := .buffer .__napi_create_buffer_copy },
          { type := { params := [.I32, .I32, .I32, .I32], results := [.I32] },
            cb := .buffer .__napi_get_arraybuffer_info },
          { type := { params := [.I32, .I32, .I32, .I32], results := [.I32] },
            cb := .buffer .__napi_get_buffer_info } ] ∧
    (∃ st w1, ∀ (rest : List Val) (r0 : Val) (rs : List Val),
      __napi_create_arraybuffer rt (.i32 a0 :: .i32 a1 :: .i32 a2 :: .i32 a3 :: rest)
        (r0 :: rs) w = .ok (none, .i32 st :: rs, w1)) ∧
    (∃ st w1, ∀ (rest : List Val) (r0 : Val) (rs : List Val),
      __napi_create_buffer rt (.i32 a0 :: .i32 a1 :: .i32 a2 :: .i32 a3 :: rest)
        (r0 :: rs) w = .ok (none, .i32 st :: rs, w1)) ∧
    (∃ st w1, ∀ (rest : List Val) (r0 : Val) (rs : List Val),
      __napi_create_buffer_copy rt
        (.i32 a0 :: .i32 a1 :: .i32 a2 :: .i32 a3 :: .i32 a4 :: rest)
        (r0 :: rs) w = .ok (none, .i32 st :: rs, w1)) ∧
    (∃ st w1, ∀ (rest : List Val) (r0 : Val) (rs : List Val),
      __napi_get_arraybuffer_info rt (.i32 a0 :: .i32 a1 :: .i32 a2 :: .i32 a3 :: rest)
        (r0 :: rs) w = .ok (none, .i32 st :: rs, w1)) ∧
    (∃ st w1, ∀ (rest : List Val) (r0 : Val) (rs : List Val),
      __napi_get_buffer_info rt (.i32 a0 :: .i32 a1 :: .i32 a2 :: .i32 a3 :: rest)
        (r0 :: rs) w = .ok (none, .i32 st :: rs, w1)) := by
  refine ⟨?_, ?_, ?_, ?_, ?_, ?_⟩
  · obtain ⟨e1, e2⟩ := cfg
    cases e1 <;> cases e2 <;> decide
  · by_cases h : rt.malloc (toSizeT a1) % WORD = 0
    · exact ⟨_, _, fun rest r0 rs => create_arraybuffer_fail rt a0 a1 a2 a3 rest r0 rs w h⟩
    · exact ⟨_, _, fun rest r0 rs =>
        create_arraybuffer_reg rt a0 a1 a2 a3 rest r0 rs w _ _ _ rfl h rfl⟩
  · by_cases h : rt.malloc (toSizeT a1) % WORD = 0
    · exact ⟨_, _, fun rest r0 rs => create_buffer_fail rt a0 a1 a2 a3 rest r0 rs w h⟩
    · exact ⟨_, _, fun rest r0 rs =>
        create_buffer_reg rt a0 a1 a2 a3 rest r0 rs w _ _ _ rfl h rfl⟩
  · by_cases h : rt.malloc (toSizeT a1) % WORD = 0
    · exact ⟨_, _, fun rest r0 rs =>
        create_buffer_copy_fail rt a0 a1 a2 a3 a4 rest r0 rs w h⟩
    · exact ⟨_, _, fun rest r0 rs =>
        create_buffer_copy_reg rt a0 a1 a2 a3 a4 rest r0 rs w _ _ _ rfl h rfl⟩
  · exact ⟨_, _, fun rest r0 rs => get_arraybuffer_info_eq rt a0 a1 a2 a3 rest r0 rs w _ _ rfl⟩
  · exact ⟨_, _, fun rest r0 rs => get_buffer_info_eq rt a0 a1 a2 a3 rest r0 rs w _ _ rfl⟩

/-! ## The byte length: claim C16 -/

/-- C16: in the three buffer-creation bindings the length argument, a signed 32-bit value
v, is converted to size_t once, and that number is the size handed to malloc, the length
handed to the registration call and, for Create-Buffer-Copy, the count handed to memcpy.
It equals v when 0 <= v < 2^31, and for negative v it is the sign-extended value 2^64 + v,
which is not the unsigned 32-bit reading v + 2^32. -/
theorem C16_length_is_sign_extended (rt : NativeApi) (a0 a1 a2 a3 a4 : Int)
    (rest : List Val) (r0 : Val) (rs : List Val) (w : World) (buffer : Nat)
    (stA stB stC : Int) (mA mB mC : Mem)
    (hlo : -2 ^ 31 ≤ a1) (hhi : a1 < 2 ^ 31)
    (hb : rt.malloc (toSizeT a1) % WORD = buffer)
    (hA : rt.napi_create_external_arraybuffer (toPtr a0) buffer (toSizeT a1) .finalizeBuffer 0
      (ptrAdd w.base a3) w.bytes = (stA, mA))
    (hB : rt.napi_create_external_buffer (toPtr a0) (toSizeT a1) buffer .finalizeBuffer 0
      (ptrAdd w.base a3) w.bytes = (stB, mB))
    (hC : rt.napi_create_external_buffer (toPtr a0) (toSizeT a1) buffer .finalizeBuffer 0
      (ptrAdd w.base a4) w.bytes = (stC, mC)) :
    (0 ≤ a1 → ((toSizeT a1 : Nat) : Int) = a1) ∧
    (a1 < 0 → ((toSizeT a1 : Nat) : Int) = 2 ^ 64 + a1 ∧
      ((toSizeT a1 : Nat) : Int) ≠ a1 + 2 ^ 32) ∧
    Option.map World.log (worldOf (__napi_create_arraybuffer rt
        (.i32 a0 :: .i32 a1 :: .i32 a2 :: .i32 a3 :: rest) (r0 :: rs) w))
      = some (w.log ++ .malloc (toSizeT a1) buffer ::
          (if buffer = 0 then [] else
            .napi_create_external_arraybuffer (toPtr a0) buffer (toSizeT a1) .finalizeBuffer 0
              (ptrAdd w.base a3) stA ::
            (if stA = napi_ok then [.store (ptrAdd w.base a2) buffer] else []))) ∧
    Option.map World.log (worldOf (__napi_create_buffer rt
        (.i32 a0 :: .i32 a1 :: .i32 a2 :: .i32 a3 :: rest) (r0 :: rs) w))
      = some (w.log ++ .malloc (toSizeT a1) buffer ::
          (if buffer = 0 then [] else
            .napi_create_external_buffer (toPtr a0) (toSizeT a1) buffer .finalizeBuffer 0
              (ptrAdd w.base a3) stB ::
            (if stB = napi_ok then [.store (ptrAdd w.base a2) buffer] else []))) ∧
    Option.map World.log (worldOf (__napi_create_buffer_copy rt
        (.i32 a0 :: .i32 a1 :: .i32 a2 :: .i32 a3 :: .i32 a4 :: rest) (r0 :: rs) w))
      = some (w.log ++ .malloc (toSizeT a1) buffer ::
          (if buffer = 0 then [] else
            .napi_create_external_buffer (toPtr a0) (toSizeT a1) buffer .finalizeBuffer 0
              (ptrAdd w.base a4) stC ::
            (if stC = napi_ok then
              [.memcpy buffer (ptrAdd w.base a2) (toSizeT a1), .store (ptrAdd w.base a3) buffer]
            else []))) := by
  refine ⟨?_, ?_, ?_, ?_, ?_⟩
  · intro h0
    unfold toSizeT
    omega
  · intro h0
    unfold toSizeT
    omega
  · by_cases h : buffer = 0
    · subst h
      rw [create_arraybuffer_fail rt a0 a1 a2 a3 rest r0 rs w hb]
      simp [worldOf]
    · rw [create_arraybuffer_reg rt a0 a1 a2 a3 rest r0 rs w buffer stA mA hb h hA]
      by_cases hs : stA = napi_ok <;> simp [worldOf, h, hs]
  · by_cases h : buffer = 0
    · subst h
      rw [create_buffer_fail rt a0 a1 a2 a3 rest r0 rs w hb]
      simp [worldOf]
    · rw [create_buffer_reg rt a0 a1 a2 a3 rest r0 rs w buffer stB mB hb h hB]
      by_cases hs : stB = napi_ok <;> simp [worldOf, h, hs]
  · by_cases h : buffer = 0
    · subst h
      rw [create_buffer_copy_fail rt a0 a1 a2 a3 a4 rest r0 rs w hb]
      simp [worldOf]
    · rw [create_buffer_copy_reg rt a0 a1 a2 a3 a4 rest r0 rs w buffer stC mC hb h hC]
      by_cases hs : stC = napi_ok <;> simp [worldOf, h, hs]

/-- C16 at the length -1 (all 32 bits set on the wire): the size handed to malloc is
2^64 - 1 = 18446744073709551615, not 2^32 - 1; the sample allocator refuses it; and at the
length 16 the size, the registered length and the copied count are all 16. -/
theorem C16_length_is_sign_extended_witness :
    ((toSizeT (-1) : Nat) : Int) = 2 ^ 64 + (-1) ∧
    ((toSizeT (-1) : Nat) : Int) ≠ (-1) + 2 ^ 32 ∧
    Option.map World.log (worldOf (__napi_create_buffer_copy demoApi
        [.i32 0, .i32 (-1), .i32 100, .i32 204, .i32 200] [.i32 99] demoWorld))
      = some [.malloc 18446744073709551615 0] ∧
    Option.map World.log (worldOf (__napi_create_buffer_copy demoApi
        [.i32 1, .i32 16, .i32 100, .i32 204, .i32 200] [.i32 99] demoWorld))
      = some [.malloc 16 68719480832,
          .napi_create_external_buffer 1 16 68719480832 .finalizeBuffer 0 21474836680 0,
          .memcpy 68719480832 21474836580 16, .store 21474836684 68719480832] :=
  ⟨((C16_length_is_sign_extended demoApi 0 (-1) 100 204 200 [] (.i32 99) [] demoWorld 0
      1 1 1 demoWorld.bytes demoWorld.bytes demoWorld.bytes (by decide) (by decide)
      (by decide) rfl rfl rfl).2.1 (by decide)).1,
    ((C16_length_is_sign_extended demoApi 0 (-1) 100 204 200 [] (.i32 99) [] demoWorld 0
      1 1 1 demoWorld.bytes demoWorld.bytes demoWorld.bytes (by decide) (by decide)
      (by decide) rfl rfl rfl).2.1 (by decide)).2,
    (C16_length_is_sign_extended demoApi 0 (-1) 100 204 200 [] (.i32 99) [] demoWorld 0
      1 1 1 demoWorld.bytes demoWorld.bytes demoWorld.bytes (by decide) (by decide)
      (by decide) rfl rfl rfl).2.2.2.2,
    (C16_length_is_sign_extended demoApi 1 16 100 204 200 [] (.i32 99) [] demoWorld
      68719480832 0 0 0
      (store64 demoWorld.bytes (ptrAdd demoWorld.base 204) 21845)
      (store64 demoWorld.bytes (ptrAdd demoWorld.base 204) 21845)
      (store64 demoWorld.bytes (ptrAdd demoWorld.base 200) 21845)
      (by decide) (by decide) (by decide) rfl rfl rfl).2.2.2.2⟩

end WasmNodeApi
